import Mathlib

/-!
Verification of the lite-rpc gRPC block-subscription decoder.

This file is a shallow embedding, in Lean 4, of
`cluster-endpoints/src/grpc_subscription.rs`: the function
`from_grpc_block_update` (mapping a raw Yellowstone gRPC block update to the
canonical `ProducedBlock`) and the composer `create_grpc_subscription`.

Conventions of the embedding:
* Machine integers are modelled as `Nat`/`Int`; wherever the Rust code
  truncates (`as u8`, `as u64`, wrapping `u32` multiplication) the embedding
  takes an explicit `% 2^w`.
* Byte strings (`Vec<u8>`, protobuf `bytes`) are `List Nat`, each entry a
  byte value `< 256`.
* A Rust panic (`unwrap`, `expect`, out-of-bounds indexing, failing
  `bincode::serialize().unwrap()`) is a distinct outcome, `PRes.panicked`,
  separate from ordinary returns, so that "aborts the process" and "returns
  an error value" are distinguishable propositions.
* Dependency code that the decoder calls (solana-sdk message/writability
  logic, bincode/borsh decoders for `TransactionError`,
  `ComputeBudgetInstruction` and `VoteInstruction`, base58/base64 rendering)
  is embedded from those sources as well, since its behaviour is part of the
  decoder's behaviour.
-/

namespace LiteRpc

/-! ## Byte-level readers (bincode fixint little-endian primitives) -/

/-- Read one byte (`u8`). -/
def readU8 : List Nat → Option (Nat × List Nat)
  | b :: rest => some (b, rest)
  | [] => none

/-- Read a little-endian `u32` (bincode fixint). -/
def readU32LE : List Nat → Option (Nat × List Nat)
  | b0 :: b1 :: b2 :: b3 :: rest =>
      some (b0 + 256 * b1 + 65536 * b2 + 16777216 * b3, rest)
  | _ => none

/-- Read a little-endian `u64` (bincode fixint). -/
def readU64LE : List Nat → Option (Nat × List Nat)
  | b0 :: b1 :: b2 :: b3 :: b4 :: b5 :: b6 :: b7 :: rest =>
      some (b0 + 256 * (b1 + 256 * (b2 + 256 * (b3 + 256 * (b4 + 256 *
        (b5 + 256 * (b6 + 256 * b7)))))), rest)
  | _ => none

/-- Read a little-endian `i64`: a `u64` reinterpreted in two's complement. -/
def readI64LE (bs : List Nat) : Option (Int × List Nat) :=
  (readU64LE bs).map fun (v, rest) =>
    (if v < 2 ^ 63 then (v : Int) else (v : Int) - 2 ^ 64, rest)

/-- Take exactly `n` bytes. -/
def readBytes : Nat → List Nat → Option (List Nat × List Nat)
  | 0, rest => some ([], rest)
  | _ + 1, [] => none
  | n + 1, b :: rest =>
      (readBytes n rest).map fun (bs, r) => (b :: bs, r)

/-- `true` iff `b` is a UTF-8 continuation byte. -/
def utf8Cont (b : Nat) : Bool := 128 ≤ b && b ≤ 191

/-- Strict UTF-8 validity of a byte string (no overlongs, no surrogates,
maximum scalar `0x10FFFF`), as enforced by Rust's `str::from_utf8` during
bincode `String` deserialization. -/
def utf8Valid : List Nat → Bool
  | [] => true
  | b :: rest =>
    if b ≤ 127 then utf8Valid rest
    else if 194 ≤ b && b ≤ 223 then
      match rest with
      | c :: r => utf8Cont c && utf8Valid r
      | [] => false
    else if b = 224 then
      match rest with
      | c :: d :: r => (160 ≤ c && c ≤ 191) && utf8Cont d && utf8Valid r
      | _ => false
    else if 225 ≤ b && b ≤ 236 then
      match rest with
      | c :: d :: r => utf8Cont c && utf8Cont d && utf8Valid r
      | _ => false
    else if b = 237 then
      match rest with
      | c :: d :: r => (128 ≤ c && c ≤ 159) && utf8Cont d && utf8Valid r
      | _ => false
    else if 238 ≤ b && b ≤ 239 then
      match rest with
      | c :: d :: r => utf8Cont c && utf8Cont d && utf8Valid r
      | _ => false
    else if b = 240 then
      match rest with
      | c :: d :: e :: r =>
          (144 ≤ c && c ≤ 191) && utf8Cont d && utf8Cont e && utf8Valid r
      | _ => false
    else if 241 ≤ b && b ≤ 243 then
      match rest with
      | c :: d :: e :: r => utf8Cont c && utf8Cont d && utf8Cont e && utf8Valid r
      | _ => false
    else if b = 244 then
      match rest with
      | c :: d :: e :: r =>
          (128 ≤ c && c ≤ 143) && utf8Cont d && utf8Cont e && utf8Valid r
      | _ => false
    else false

/-- Read a bincode `String`: `u64` length, then that many UTF-8 bytes.
The decoded text is kept as its byte list. -/
def readBincodeString (bs : List Nat) : Option (List Nat × List Nat) :=
  match readU64LE bs with
  | none => none
  | some (len, rest) =>
    match readBytes len rest with
    | none => none
    | some (str, r) => if utf8Valid str then some (str, r) else none

/-- Read a bincode `Option<A>`: one tag byte, `0` = `None`, `1` = `Some`. -/
def readBincodeOption (readA : List Nat → Option (α × List Nat))
    (bs : List Nat) : Option (Option α × List Nat) :=
  match bs with
  | 0 :: rest => some (none, rest)
  | 1 :: rest => (readA rest).map fun (a, r) => (some a, r)
  | _ => none

/-! ## Base58 and base64 rendering

`Signature`/`Hash` `Display` is base58 (`bs58::encode`); the canonical
message text is produced by the standard base64 alphabet with padding. -/

/-- The bitcoin base58 alphabet. -/
def base58Alphabet : List Char :=
  "123456789ABCDEFGHJKLMNPQRSTUVWXYZabcdefghijkmnopqrstuvwxyz".toList

/-- Little-endian base-58 digits of `n`, with explicit fuel (each digit
divides by 58, so `fuel` bounds the digit count). -/
def base58DigitsLE : Nat → Nat → List Nat
  | 0, _ => []
  | fuel + 1, n => if n = 0 then [] else n % 58 :: base58DigitsLE fuel (n / 58)

/-- Count of leading zero bytes (each rendered as `'1'` by base58). -/
def leadingZeroCount : List Nat → Nat
  | [] => 0
  | b :: rest => if b = 0 then leadingZeroCount rest + 1 else 0

/-- `bs58::encode(bytes).into_string()`: big-endian base58 with one `'1'`
per leading zero byte. -/
def base58Encode (bytes : List Nat) : String :=
  let value := bytes.foldl (fun acc b => acc * 256 + b) 0
  let digits := (base58DigitsLE (2 * bytes.length + 1) value).reverse
  ⟨List.replicate (leadingZeroCount bytes) '1' ++
    digits.map (fun d => base58Alphabet.getD d '1')⟩

/-- The standard base64 alphabet. -/
def base64Alphabet : List Char :=
  "ABCDEFGHIJKLMNOPQRSTUVWXYZabcdefghijklmnopqrstuvwxyz0123456789+/".toList

/-- One base64 digit. -/
def base64Char (n : Nat) : Char := base64Alphabet.getD n 'A'

/-- Standard base64 with `'='` padding, 3 input bytes per 4 output chars. -/
def base64Chars : List Nat → List Char
  | [] => []
  | [a] => [base64Char (a / 4), base64Char (a % 4 * 16), '=', '=']
  | [a, b] =>
      [base64Char (a / 4), base64Char (a % 4 * 16 + b / 16),
       base64Char (b % 16 * 4), '=']
  | a :: b :: c :: rest =>
      base64Char (a / 4) :: base64Char (a % 4 * 16 + b / 16) ::
      base64Char (b % 16 * 4 + c / 64) :: base64Char (c % 64) ::
      base64Chars rest

/-- `BASE64.encode` of the lite-rpc core encoding module.

Modelled from the spec: the canonical message is "re-serialized … and
encoded as text" (§4.1); the core crate's `BASE64` encoding (not under
`src/`) is the standard base64 alphabet with padding. -/
def base64Encode (bytes : List Nat) : String := ⟨base64Chars bytes⟩

/-! ## solana-sdk data model used by the decoder -/

/-- `solana_sdk::pubkey::Pubkey`: a 32-byte value. -/
structure Pubkey where
  bytes : List Nat
deriving DecidableEq, Repr

/-- `Pubkey::default()`: the all-zero key. -/
def Pubkey.default : Pubkey := ⟨List.replicate 32 0⟩

/-- `compute_budget::id()`, the bytes of
`ComputeBudget111111111111111111111111111111`. -/
def computeBudgetId : Pubkey :=
  ⟨[3, 6, 70, 111, 229, 33, 23, 50, 255, 236, 173, 186, 114, 195, 155, 231,
    188, 140, 229, 187, 197, 247, 18, 107, 44, 67, 155, 58, 64, 0, 0, 0]⟩

/-- `solana_sdk::vote::program::id()`, the bytes of
`Vote111111111111111111111111111111111111111`. -/
def voteProgramId : Pubkey :=
  ⟨[7, 97, 72, 29, 53, 116, 116, 187, 124, 77, 118, 36, 235, 211, 189, 179,
    216, 53, 94, 115, 209, 16, 67, 252, 13, 163, 83, 128, 0, 0, 0, 0]⟩

/-- `bpf_loader_upgradeable::id()`, the bytes of
`BPFLoaderUpgradeab1e11111111111111111111111` (used by the message's
program-id write-demotion check). -/
def bpfLoaderUpgradeableId : Pubkey :=
  ⟨[2, 168, 246, 145, 78, 136, 161, 176, 226, 16, 21, 62, 247, 99, 174, 43,
    0, 194, 185, 61, 22, 193, 36, 210, 192, 83, 122, 16, 4, 128, 0, 0]⟩

/-- `solana_sdk::message::MessageHeader` (three `u8` counts; the decoder
fills them by truncating the wide wire integers, so values are `< 256`). -/
structure MessageHeader where
  num_required_signatures : Nat
  num_readonly_signed_accounts : Nat
  num_readonly_unsigned_accounts : Nat
deriving DecidableEq, Repr

/-- `solana_sdk::instruction::CompiledInstruction`
(`program_id_index : u8`, account indices and data as raw bytes). -/
structure CompiledInstruction where
  program_id_index : Nat
  accounts : List Nat
  data : List Nat
deriving DecidableEq, Repr

/-- `solana_sdk::message::v0::MessageAddressTableLookup`. -/
structure MessageAddressTableLookup where
  account_key : Pubkey
  writable_indexes : List Nat
  readonly_indexes : List Nat
deriving DecidableEq, Repr

/-- `solana_sdk::message::v0::Message`. -/
structure Message where
  header : MessageHeader
  account_keys : List Pubkey
  recent_blockhash : List Nat
  instructions : List CompiledInstruction
  address_table_lookups : List MessageAddressTableLookup
deriving DecidableEq, Repr

/-- `v0::Message::is_writable_index`: positional writability as requested by
the header counts and the lookup tables' writable index lists. -/
def Message.is_writable_index (m : Message) (key_index : Nat) : Bool :=
  let num_account_keys := m.account_keys.length
  let num_signed_accounts := m.header.num_required_signatures
  if key_index ≥ num_account_keys then
    let loaded_addresses_index := key_index - num_account_keys
    let num_writable_dynamic_addresses :=
      (m.address_table_lookups.map (fun l => l.writable_indexes.length)).sum
    loaded_addresses_index < num_writable_dynamic_addresses
  else if key_index ≥ num_signed_accounts then
    let num_unsigned_accounts := num_account_keys - num_signed_accounts
    let num_writable_unsigned_accounts :=
      num_unsigned_accounts - m.header.num_readonly_unsigned_accounts
    let unsigned_account_index := key_index - num_signed_accounts
    unsigned_account_index < num_writable_unsigned_accounts
  else
    let num_writable_signed_accounts :=
      num_signed_accounts - m.header.num_readonly_signed_accounts
    key_index < num_writable_signed_accounts

/-- `v0::Message::is_key_called_as_program`: some instruction names this
index as its program id (the index must fit in a `u8`). -/
def Message.is_key_called_as_program (m : Message) (key_index : Nat) : Bool :=
  if key_index < 256 then
    m.instructions.any (fun ix => ix.program_id_index = key_index)
  else false

/-- `v0::Message::is_upgradeable_loader_in_static_keys`. -/
def Message.is_upgradeable_loader_in_static_keys (m : Message) : Bool :=
  m.account_keys.any (fun key => key = bpfLoaderUpgradeableId)

/-- `v0::Message::is_maybe_writable`: positional writability with program
ids demoted to read-only unless the upgradeable loader is a static key. -/
def Message.is_maybe_writable (m : Message) (key_index : Nat) : Bool :=
  m.is_writable_index key_index &&
    !(m.is_key_called_as_program key_index &&
      !m.is_upgradeable_loader_in_static_keys)

/-- `solana_sdk::message::VersionedMessage`: the decoder always builds the
`V0` arm; `Legacy` is carried to keep the version tag meaningful. (The
legacy arm's payload has the same field shape minus the lookups, which a
legacy message never carries; reusing `Message` with empty lookups keeps the
embedding small without changing any serialized byte.) -/
inductive VersionedMessage
  | Legacy (m : Message)
  | V0 (m : Message)
deriving DecidableEq, Repr

/-! ## `TransactionError` and its fixed binary (bincode) decoding

`solana_sdk::transaction::TransactionError` (solana-sdk 1.17), with
`solana_sdk::instruction::InstructionError` nested in variant 8. bincode
encodes an enum as a little-endian `u32` variant index followed by the
variant's fields; `bincode::deserialize` allows trailing bytes. -/

/-- `solana_sdk::instruction::InstructionError`; the `BorshIoError` text is
kept as its UTF-8 bytes. -/
inductive InstructionError
  | GenericError | InvalidArgument | InvalidInstructionData | InvalidAccountData
  | AccountDataTooSmall | InsufficientFunds | IncorrectProgramId
  | MissingRequiredSignature | AccountAlreadyInitialized | UninitializedAccount
  | UnbalancedInstruction | ModifiedProgramId | ExternalAccountLamportSpend
  | ExternalAccountDataModified | ReadonlyLamportChange | ReadonlyDataModified
  | DuplicateAccountIndex | ExecutableModified | RentEpochModified
  | NotEnoughAccountKeys | AccountDataSizeChanged | AccountNotExecutable
  | AccountBorrowFailed | AccountBorrowOutstanding | DuplicateAccountOutOfSync
  | Custom (code : Nat) | InvalidError | ExecutableDataModified
  | ExecutableLamportChange | ExecutableAccountNotRentExempt
  | UnsupportedProgramId | CallDepth | MissingAccount | ReentrancyNotAllowed
  | MaxSeedLengthExceeded | InvalidSeeds | InvalidRealloc
  | ComputationalBudgetExceeded | PrivilegeEscalation
  | ProgramEnvironmentSetupFailure | ProgramFailedToComplete
  | ProgramFailedToCompile | Immutable | IncorrectAuthority
  | BorshIoError (text : List Nat) | AccountNotRentExempt | InvalidAccountOwner
  | ArithmeticOverflow | UnsupportedSysvar | IllegalOwner
  | MaxAccountsDataAllocationsExceeded | MaxAccountsExceeded
  | MaxInstructionTraceLengthExceeded
deriving Repr

/-- `solana_sdk::transaction::TransactionError`. -/
inductive TransactionError
  | AccountInUse | AccountLoadedTwice | AccountNotFound | ProgramAccountNotFound
  | InsufficientFundsForFee | InvalidAccountForFee | AlreadyProcessed
  | BlockhashNotFound
  | InstructionError (index : Nat) (err : LiteRpc.InstructionError)
  | CallChainTooDeep | MissingSignatureForFee | InvalidAccountIndex
  | SignatureFailure | InvalidProgramForExecution | SanitizeFailure
  | ClusterMaintenance | AccountBorrowOutstanding | WouldExceedMaxBlockCostLimit
  | UnsupportedVersion | InvalidWritableAccount | WouldExceedMaxAccountCostLimit
  | WouldExceedAccountDataBlockLimit | TooManyAccountLocks
  | AddressLookupTableNotFound | InvalidAddressLookupTableOwner
  | InvalidAddressLookupTableData | InvalidAddressLookupTableIndex
  | InvalidRentPayingAccount | WouldExceedMaxVoteCostLimit
  | WouldExceedAccountDataTotalLimit
  | DuplicateInstruction (index : Nat)
  | InsufficientFundsForRent (account_index : Nat)
  | MaxLoadedAccountsDataSizeExceeded | InvalidLoadedAccountsDataSizeLimit
  | ResanitizationNeeded
  | ProgramExecutionTemporarilyRestricted (account_index : Nat)
  | UnbalancedTransaction
deriving Repr

/-- bincode decoding of `InstructionError` (the payload of
`TransactionError::InstructionError`), returning the unconsumed tail. -/
def decodeInstructionError (bs : List Nat) :
    Option (InstructionError × List Nat) :=
  match readU32LE bs with
  | none => none
  | some (tag, rest) =>
    match tag with
    | 0 => some (.GenericError, rest)
    | 1 => some (.InvalidArgument, rest)
    | 2 => some (.InvalidInstructionData, rest)
    | 3 => some (.InvalidAccountData, rest)
    | 4 => some (.AccountDataTooSmall, rest)
    | 5 => some (.InsufficientFunds, rest)
    | 6 => some (.IncorrectProgramId, rest)
    | 7 => some (.MissingRequiredSignature, rest)
    | 8 => some (.AccountAlreadyInitialized, rest)
    | 9 => some (.UninitializedAccount, rest)
    | 10 => some (.UnbalancedInstruction, rest)
    | 11 => some (.ModifiedProgramId, rest)
    | 12 => some (.ExternalAccountLamportSpend, rest)
    | 13 => some (.ExternalAccountDataModified, rest)
    | 14 => some (.ReadonlyLamportChange, rest)
    | 15 => some (.ReadonlyDataModified, rest)
    | 16 => some (.DuplicateAccountIndex, rest)
    | 17 => some (.ExecutableModified, rest)
    | 18 => some (.RentEpochModified, rest)
    | 19 => some (.NotEnoughAccountKeys, rest)
    | 20 => some (.AccountDataSizeChanged, rest)
    | 21 => some (.AccountNotExecutable, rest)
    | 22 => some (.AccountBorrowFailed, rest)
    | 23 => some (.AccountBorrowOutstanding, rest)
    | 24 => some (.DuplicateAccountOutOfSync, rest)
    | 25 => (readU32LE rest).map fun (code, r) => (.Custom code, r)
    | 26 => some (.InvalidError, rest)
    | 27 => some (.ExecutableDataModified, rest)
    | 28 => some (.ExecutableLamportChange, rest)
    | 29 => some (.ExecutableAccountNotRentExempt, rest)
    | 30 => some (.UnsupportedProgramId, rest)
    | 31 => some (.CallDepth, rest)
    | 32 => some (.MissingAccount, rest)
    | 33 => some (.ReentrancyNotAllowed, rest)
    | 34 => some (.MaxSeedLengthExceeded, rest)
    | 35 => some (.InvalidSeeds, rest)
    | 36 => some (.InvalidRealloc, rest)
    | 37 => some (.ComputationalBudgetExceeded, rest)
    | 38 => some (.PrivilegeEscalation, rest)
    | 39 => some (.ProgramEnvironmentSetupFailure, rest)
    | 40 => some (.ProgramFailedToComplete, rest)
    | 41 => some (.ProgramFailedToCompile, rest)
    | 42 => some (.Immutable, rest)
    | 43 => some (.IncorrectAuthority, rest)
    | 44 => (readBincodeString rest).map fun (text, r) => (.BorshIoError text, r)
    | 45 => some (.AccountNotRentExempt, rest)
    | 46 => some (.InvalidAccountOwner, rest)
    | 47 => some (.ArithmeticOverflow, rest)
    | 48 => some (.UnsupportedSysvar, rest)
    | 49 => some (.IllegalOwner, rest)
    | 50 => some (.MaxAccountsDataAllocationsExceeded, rest)
    | 51 => some (.MaxAccountsExceeded, rest)
    | 52 => some (.MaxInstructionTraceLengthExceeded, rest)
    | _ => none

/-- `bincode::deserialize::<TransactionError>`: `u32` variant index plus
fields; unknown index or short payload fails; trailing bytes are allowed. -/
def decodeTransactionError (bs : List Nat) : Option TransactionError :=
  match readU32LE bs with
  | none => none
  | some (tag, rest) =>
    match tag with
    | 0 => some .AccountInUse
    | 1 => some .AccountLoadedTwice
    | 2 => some .AccountNotFound
    | 3 => some .ProgramAccountNotFound
    | 4 => some .InsufficientFundsForFee
    | 5 => some .InvalidAccountForFee
    | 6 => some .AlreadyProcessed
    | 7 => some .BlockhashNotFound
    | 8 =>
      match readU8 rest with
      | none => none
      | some (ixIndex, r) =>
        (decodeInstructionError r).map fun (e, _) => .InstructionError ixIndex e
    | 9 => some .CallChainTooDeep
    | 10 => some .MissingSignatureForFee
    | 11 => some .InvalidAccountIndex
    | 12 => some .SignatureFailure
    | 13 => some .InvalidProgramForExecution
    | 14 => some .SanitizeFailure
    | 15 => some .ClusterMaintenance
    | 16 => some .AccountBorrowOutstanding
    | 17 => some .WouldExceedMaxBlockCostLimit
    | 18 => some .UnsupportedVersion
    | 19 => some .InvalidWritableAccount
    | 20 => some .WouldExceedMaxAccountCostLimit
    | 21 => some .WouldExceedAccountDataBlockLimit
    | 22 => some .TooManyAccountLocks
    | 23 => some .AddressLookupTableNotFound
    | 24 => some .InvalidAddressLookupTableOwner
    | 25 => some .InvalidAddressLookupTableData
    | 26 => some .InvalidAddressLookupTableIndex
    | 27 => some .InvalidRentPayingAccount
    | 28 => some .WouldExceedMaxVoteCostLimit
    | 29 => some .WouldExceedAccountDataTotalLimit
    | 30 => (readU8 rest).map fun (i, _) => .DuplicateInstruction i
    | 31 => (readU8 rest).map fun (i, _) => .InsufficientFundsForRent i
    | 32 => some .MaxLoadedAccountsDataSizeExceeded
    | 33 => some .InvalidLoadedAccountsDataSizeLimit
    | 34 => some .ResanitizationNeeded
    | 35 => (readU8 rest).map fun (i, _) => .ProgramExecutionTemporarilyRestricted i
    | 36 => some .UnbalancedTransaction
    | _ => none

/-! ## `ComputeBudgetInstruction` and its borsh decoding

`solana_sdk::compute_budget::ComputeBudgetInstruction`; borsh encodes the
enum as one tag byte followed by little-endian fields, and
`try_from_slice_unchecked` ignores trailing bytes. -/

/-- `ComputeBudgetInstruction` (solana-sdk 1.17). -/
inductive ComputeBudgetInstruction
  | RequestUnitsDeprecated (units : Nat) (additional_fee : Nat)
  | RequestHeapFrame (bytes : Nat)
  | SetComputeUnitLimit (units : Nat)
  | SetComputeUnitPrice (micro_lamports : Nat)
  | SetLoadedAccountsDataSizeLimit (bytes : Nat)
deriving DecidableEq, Repr

/-- `try_from_slice_unchecked::<ComputeBudgetInstruction>`. -/
def decodeComputeBudgetInstruction (data : List Nat) :
    Option ComputeBudgetInstruction :=
  match data with
  | [] => none
  | tag :: rest =>
    match tag with
    | 0 =>
      match readU32LE rest with
      | none => none
      | some (units, r) =>
        (readU32LE r).map fun (fee, _) => .RequestUnitsDeprecated units fee
    | 1 => (readU32LE rest).map fun (b, _) => .RequestHeapFrame b
    | 2 => (readU32LE rest).map fun (u, _) => .SetComputeUnitLimit u
    | 3 => (readU64LE rest).map fun (p, _) => .SetComputeUnitPrice p
    | 4 => (readU32LE rest).map fun (b, _) => .SetLoadedAccountsDataSizeLimit b
    | _ => none

/-! ## `VoteInstruction` and its limited bincode decoding

`solana_sdk::vote::instruction::VoteInstruction` (solana-sdk 1.17), decoded
by `limited_deserialize` (bincode fixint, trailing bytes allowed, at most
`PACKET_DATA_SIZE = 1232` bytes read). Only `is_simple_vote` of the result
is consumed by the decoder. -/

/-- `VoteAuthorize` (bincode: `u32` tag 0/1). -/
inductive VoteAuthorize
  | Voter
  | Withdrawer
deriving DecidableEq, Repr

/-- `vote::state::Vote`. -/
structure VoteData where
  slots : List Nat
  hash : List Nat
  timestamp : Option Int
deriving DecidableEq, Repr

/-- `vote::state::Lockout`. -/
structure Lockout where
  slot : Nat
  confirmation_count : Nat
deriving DecidableEq, Repr

/-- `vote::state::VoteStateUpdate`. -/
structure VoteStateUpdate where
  lockouts : List Lockout
  root : Option Nat
  hash : List Nat
  timestamp : Option Int
deriving DecidableEq, Repr

/-- `vote::instruction::VoteAuthorizeWithSeedArgs` (the seed is kept as its
UTF-8 bytes). -/
structure VoteAuthorizeWithSeedArgs where
  authorization_type : VoteAuthorize
  current_authority_derived_key_owner : Pubkey
  current_authority_derived_key_seed : List Nat
  new_authority : Pubkey
deriving DecidableEq, Repr

/-- `vote::instruction::VoteAuthorizeCheckedWithSeedArgs`. -/
structure VoteAuthorizeCheckedWithSeedArgs where
  authorization_type : VoteAuthorize
  current_authority_derived_key_owner : Pubkey
  current_authority_derived_key_seed : List Nat
deriving DecidableEq, Repr

/-- `vote::instruction::VoteInstruction` (solana-sdk 1.17). -/
inductive VoteInstruction
  | InitializeAccount (node_pubkey authorized_voter authorized_withdrawer : Pubkey)
      (commission : Nat)
  | Authorize (newAuthority : Pubkey) (which : VoteAuthorize)
  | Vote (v : VoteData)
  | Withdraw (lamports : Nat)
  | UpdateValidatorIdentity
  | UpdateCommission (commission : Nat)
  | VoteSwitch (v : VoteData) (proofHash : List Nat)
  | AuthorizeChecked (which : VoteAuthorize)
  | UpdateVoteState (u : VoteStateUpdate)
  | UpdateVoteStateSwitch (u : VoteStateUpdate) (proofHash : List Nat)
  | AuthorizeWithSeed (a : VoteAuthorizeWithSeedArgs)
  | AuthorizeCheckedWithSeed (a : VoteAuthorizeCheckedWithSeedArgs)
  | CompactUpdateVoteState (u : VoteStateUpdate)
  | CompactUpdateVoteStateSwitch (u : VoteStateUpdate) (proofHash : List Nat)
deriving DecidableEq, Repr

/-- `VoteInstruction::is_simple_vote`. -/
def VoteInstruction.is_simple_vote : VoteInstruction → Bool
  | .Vote _ | .VoteSwitch _ _ | .UpdateVoteState _ | .UpdateVoteStateSwitch _ _
  | .CompactUpdateVoteState _ | .CompactUpdateVoteStateSwitch _ _ => true
  | _ => false

/-- Read a 32-byte `Pubkey`. -/
def readPubkey (bs : List Nat) : Option (Pubkey × List Nat) :=
  (readBytes 32 bs).map fun (b, r) => (⟨b⟩, r)

/-- Read a 32-byte `Hash`. -/
def readHash32 (bs : List Nat) : Option (List Nat × List Nat) := readBytes 32 bs

/-- Read a bincode `Vec<u64>` (`u64` count then fixint elements). The count
argument drives the recursion; a short input fails. -/
def readU64Elems : Nat → List Nat → Option (List Nat × List Nat)
  | 0, rest => some ([], rest)
  | n + 1, rest =>
    match readU64LE rest with
    | none => none
    | some (v, r) => (readU64Elems n r).map fun (vs, r2) => (v :: vs, r2)

/-- Read a bincode `Vec<u64>` / `VecDeque<u64>`. -/
def readVecU64 (bs : List Nat) : Option (List Nat × List Nat) :=
  match readU64LE bs with
  | none => none
  | some (count, rest) => readU64Elems count rest

/-- Read `count` bincode `Lockout`s (`u64` slot, `u32` confirmation count). -/
def readLockouts : Nat → List Nat → Option (List Lockout × List Nat)
  | 0, rest => some ([], rest)
  | n + 1, rest =>
    match readU64LE rest with
    | none => none
    | some (slot, r) =>
      match readU32LE r with
      | none => none
      | some (cc, r2) =>
        (readLockouts n r2).map fun (ls, r3) => (⟨slot, cc⟩ :: ls, r3)

/-- Read a bincode `VoteAuthorize`. -/
def readVoteAuthorize (bs : List Nat) : Option (VoteAuthorize × List Nat) :=
  match readU32LE bs with
  | some (0, r) => some (.Voter, r)
  | some (1, r) => some (.Withdrawer, r)
  | _ => none

/-- Read a bincode `Vote`. -/
def readVote (bs : List Nat) : Option (VoteData × List Nat) :=
  match readVecU64 bs with
  | none => none
  | some (slots, r) =>
    match readHash32 r with
    | none => none
    | some (h, r2) =>
      (readBincodeOption readI64LE r2).map fun (ts, r3) => (⟨slots, h, ts⟩, r3)

/-- Read a bincode `VoteStateUpdate` (non-compact form). -/
def readVoteStateUpdate (bs : List Nat) : Option (VoteStateUpdate × List Nat) :=
  match readU64LE bs with
  | none => none
  | some (count, rest) =>
    match readLockouts count rest with
    | none => none
    | some (ls, r) =>
      match readBincodeOption readU64LE r with
      | none => none
      | some (root, r2) =>
        match readHash32 r2 with
        | none => none
        | some (h, r3) =>
          (readBincodeOption readI64LE r3).map fun (ts, r4) =>
            (⟨ls, root, h, ts⟩, r4)

/-- Decode a `short_vec` length (`ShortU16`): up to three 7-bit groups,
little-endian; a trailing zero group (alias) is rejected, the value must fit
in a `u16`, and the last group must have its continuation bit clear. -/
def readShortU16 (bs : List Nat) : Option (Nat × List Nat) :=
  match bs with
  | [] => none
  | b0 :: r0 =>
    if b0 < 128 then some (b0, r0)
    else
      match r0 with
      | [] => none
      | b1 :: r1 =>
        if b1 = 0 then none
        else if b1 < 128 then
          let v := b0 % 128 + 128 * b1
          if v ≤ 65535 then some (v, r1) else none
        else
          match r1 with
          | [] => none
          | b2 :: r2 =>
            if b2 = 0 then none
            else if b2 < 128 then
              let v := b0 % 128 + 128 * (b1 % 128) + 16384 * b2
              if v ≤ 65535 then some (v, r2) else none
            else none

/-- Decode a `serde_varint` `u64`: 7-bit groups, little-endian, at most ten
groups; a trailing zero group is rejected and the value must fit in 64 bits.
The first argument is the remaining group budget, the second the bit shift
accumulated so far. -/
def readVarintU64 : Nat → Nat → Nat → List Nat → Option (Nat × List Nat)
  | 0, _, _, _ => none
  | fuel + 1, shift, acc, bs =>
    match bs with
    | [] => none
    | b :: rest =>
      if shift ≥ 64 then none
      else if b < 128 then
        if b = 0 ∧ shift > 0 then none
        else
          let v := acc + b * 2 ^ shift
          if v < 2 ^ 64 then some (v, rest) else none
      else readVarintU64 fuel (shift + 7) (acc + b % 128 * 2 ^ shift) rest

/-- Entry point for a varint `u64`. -/
def readVarint (bs : List Nat) : Option (Nat × List Nat) :=
  readVarintU64 10 0 0 bs

/-- Read `count` compact lockout offsets (varint offset, `u8`
confirmation count). -/
def readLockoutOffsets : Nat → List Nat → Option (List (Nat × Nat) × List Nat)
  | 0, rest => some ([], rest)
  | n + 1, rest =>
    match readVarint rest with
    | none => none
    | some (off, r) =>
      match readU8 r with
      | none => none
      | some (cc, r2) =>
        (readLockoutOffsets n r2).map fun (os, r3) => ((off, cc) :: os, r3)

/-- Rebuild the lockout list from compact offsets: each offset is added to
the running slot with a checked `u64` addition (overflow fails).

Modelled from the spec at the level the source uses it: the compact
reconstruction lives in solana-sdk's `serde_compact_vote_state_update`,
outside this repository; it only feeds the vote-or-not classification. -/
def expandLockoutOffsets : Nat → List (Nat × Nat) → Option (List Lockout)
  | _, [] => some []
  | slot, (off, cc) :: rest =>
    let slot' := slot + off
    if slot' < 2 ^ 64 then
      (expandLockoutOffsets slot' rest).map fun ls => ⟨slot', cc⟩ :: ls
    else none

/-- Read a compact `VoteStateUpdate` (`serde_compact_vote_state_update`):
`u64` root with `u64::MAX` meaning none, a `short_vec` of varint lockout
offsets, the hash, and an optional timestamp. -/
def readCompactVoteStateUpdate (bs : List Nat) :
    Option (VoteStateUpdate × List Nat) :=
  match readU64LE bs with
  | none => none
  | some (rootRaw, rest) =>
    let root : Option Nat := if rootRaw = 2 ^ 64 - 1 then none else some rootRaw
    match readShortU16 rest with
    | none => none
    | some (count, r) =>
      match readLockoutOffsets count r with
      | none => none
      | some (offs, r2) =>
        match expandLockoutOffsets (root.getD 0) offs with
        | none => none
        | some ls =>
          match readHash32 r2 with
          | none => none
          | some (h, r3) =>
            (readBincodeOption readI64LE r3).map fun (ts, r4) =>
              (⟨ls, root, h, ts⟩, r4)

/-- Read a bincode `VoteInit`. -/
def readVoteInit (bs : List Nat) :
    Option ((Pubkey × Pubkey × Pubkey × Nat) × List Nat) :=
  match readPubkey bs with
  | none => none
  | some (node, r) =>
    match readPubkey r with
    | none => none
    | some (voter, r2) =>
      match readPubkey r2 with
      | none => none
      | some (withdrawer, r3) =>
        (readU8 r3).map fun (commission, r4) =>
          ((node, voter, withdrawer, commission), r4)

/-- Read a bincode `VoteAuthorizeWithSeedArgs`. -/
def readAuthorizeWithSeedArgs (bs : List Nat) :
    Option (VoteAuthorizeWithSeedArgs × List Nat) :=
  match readVoteAuthorize bs with
  | none => none
  | some (ty, r) =>
    match readPubkey r with
    | none => none
    | some (owner, r2) =>
      match readBincodeString r2 with
      | none => none
      | some (seed, r3) =>
        (readPubkey r3).map fun (newAuth, r4) => (⟨ty, owner, seed, newAuth⟩, r4)

/-- Read a bincode `VoteAuthorizeCheckedWithSeedArgs`. -/
def readAuthorizeCheckedWithSeedArgs (bs : List Nat) :
    Option (VoteAuthorizeCheckedWithSeedArgs × List Nat) :=
  match readVoteAuthorize bs with
  | none => none
  | some (ty, r) =>
    match readPubkey r with
    | none => none
    | some (owner, r2) =>
      (readBincodeString r2).map fun (seed, r3) => (⟨ty, owner, seed⟩, r3)

/-- bincode decoding of `VoteInstruction` (`u32` variant tag then fields),
returning the unconsumed tail. -/
def decodeVoteInstructionBody (bs : List Nat) :
    Option (VoteInstruction × List Nat) :=
  match readU32LE bs with
  | none => none
  | some (tag, rest) =>
    match tag with
    | 0 => (readVoteInit rest).map fun ((n, v, w, c), r) =>
        (.InitializeAccount n v w c, r)
    | 1 =>
      match readPubkey rest with
      | none => none
      | some (pk, r) =>
        (readVoteAuthorize r).map fun (a, r2) => (.Authorize pk a, r2)
    | 2 => (readVote rest).map fun (v, r) => (.Vote v, r)
    | 3 => (readU64LE rest).map fun (l, r) => (.Withdraw l, r)
    | 4 => some (.UpdateValidatorIdentity, rest)
    | 5 => (readU8 rest).map fun (c, r) => (.UpdateCommission c, r)
    | 6 =>
      match readVote rest with
      | none => none
      | some (v, r) =>
        (readHash32 r).map fun (h, r2) => (.VoteSwitch v h, r2)
    | 7 => (readVoteAuthorize rest).map fun (a, r) => (.AuthorizeChecked a, r)
    | 8 => (readVoteStateUpdate rest).map fun (u, r) => (.UpdateVoteState u, r)
    | 9 =>
      match readVoteStateUpdate rest with
      | none => none
      | some (u, r) =>
        (readHash32 r).map fun (h, r2) => (.UpdateVoteStateSwitch u h, r2)
    | 10 => (readAuthorizeWithSeedArgs rest).map fun (a, r) =>
        (.AuthorizeWithSeed a, r)
    | 11 => (readAuthorizeCheckedWithSeedArgs rest).map fun (a, r) =>
        (.AuthorizeCheckedWithSeed a, r)
    | 12 => (readCompactVoteStateUpdate rest).map fun (u, r) =>
        (.CompactUpdateVoteState u, r)
    | 13 =>
      match readCompactVoteStateUpdate rest with
      | none => none
      | some (u, r) =>
        (readHash32 r).map fun (h, r2) => (.CompactUpdateVoteStateSwitch u h, r2)
    | _ => none

/-- `limited_deserialize::<VoteInstruction>`: bincode with trailing bytes
allowed, failing when more than `PACKET_DATA_SIZE = 1232` bytes are
consumed. -/
def limitedDeserializeVote (data : List Nat) : Option VoteInstruction :=
  match decodeVoteInstructionBody data with
  | none => none
  | some (vi, rest) =>
      if data.length - rest.length ≤ 1232 then some vi else none

/-! ## Message serialization (`VersionedMessage::serialize`)

The solana wire format: for a `V0` message one prefix byte
`MESSAGE_VERSION_PREFIX | 0 = 0x80`, then the header's three bytes, a
`short_vec` of 32-byte account keys, the 32-byte recent blockhash, a
`short_vec` of instructions and a `short_vec` of address-table lookups. A
legacy message serializes the same fields (it has no lookups) without the
prefix byte. A sequence longer than `u16::MAX` makes `short_vec`
serialization fail, which `serialize`'s `.unwrap()` turns into a panic. -/

/-- Encode a `ShortU16` length (compact-u16: 7-bit groups, little-endian). -/
def shortU16Bytes (n : Nat) : List Nat :=
  if n < 128 then [n]
  else if n < 16384 then [n % 128 + 128, n / 128]
  else [n % 128 + 128, n / 128 % 128 + 128, n / 16384]

/-- Serialize a `short_vec`: fails (`none`) when the length exceeds
`u16::MAX`. -/
def serializeShortVec (ser : α → List Nat) (xs : List α) :
    Option (List Nat) :=
  if xs.length ≤ 65535 then
    some (shortU16Bytes xs.length ++ (xs.map ser).flatten)
  else none

/-- Serialized bytes of one `CompiledInstruction`. -/
def serializeInstruction (ix : CompiledInstruction) : Option (List Nat) :=
  match serializeShortVec (fun b => [b]) ix.accounts with
  | none => none
  | some accs =>
    (serializeShortVec (fun b => [b]) ix.data).map fun dat =>
      ix.program_id_index :: accs ++ dat

/-- Serialized bytes of one `MessageAddressTableLookup`. -/
def serializeLookup (l : MessageAddressTableLookup) : Option (List Nat) :=
  match serializeShortVec (fun b => [b]) l.writable_indexes with
  | none => none
  | some w =>
    (serializeShortVec (fun b => [b]) l.readonly_indexes).map fun r =>
      l.account_key.bytes ++ w ++ r

/-- Map every element through a fallible serializer. -/
def traverseSer (ser : α → Option (List Nat)) : List α → Option (List (List Nat))
  | [] => some []
  | x :: xs =>
    match ser x with
    | none => none
    | some b => (traverseSer ser xs).map fun bs => b :: bs

/-- Serialize a `short_vec` of elements whose own serialization can fail. -/
def serializeShortVecF (ser : α → Option (List Nat)) (xs : List α) :
    Option (List Nat) :=
  match traverseSer ser xs with
  | none => none
  | some parts =>
    if xs.length ≤ 65535 then
      some (shortU16Bytes xs.length ++ parts.flatten)
    else none

/-- Serialized body of a message: header, keys, blockhash, instructions
(shared by the legacy and `V0` forms). -/
def serializeMessageCore (m : Message) : Option (List Nat) :=
  match serializeShortVec Pubkey.bytes m.account_keys with
  | none => none
  | some keys =>
    match serializeShortVecF serializeInstruction m.instructions with
    | none => none
    | some ixs =>
      some ([m.header.num_required_signatures,
             m.header.num_readonly_signed_accounts,
             m.header.num_readonly_unsigned_accounts] ++
            keys ++ m.recent_blockhash ++ ixs)

/-- `VersionedMessage::serialize` (via bincode): legacy messages have no
version prefix; `V0` messages are prefixed with `0x80` and carry their
address-table lookups. -/
def serializeVersionedMessage : VersionedMessage → Option (List Nat)
  | .Legacy m => serializeMessageCore m
  | .V0 m =>
    match serializeMessageCore m with
    | none => none
    | some core =>
      (serializeShortVecF serializeLookup m.address_table_lookups).map
        fun lookups => 128 :: core ++ lookups

/-! ## Wire (protobuf) structures

The fields of `yellowstone_grpc_proto`'s `SubscribeUpdateBlock` tree that
`from_grpc_block_update` reads; protobuf fields the function never touches
are omitted, except `versioned`, kept to state that the decoder ignores the
wire message's version flag. -/

/-- Wire `MessageHeader` (proto `u32` fields — wider than the 8-bit counts
of the canonical header). -/
structure WireHeader where
  num_required_signatures : Nat
  num_readonly_signed_accounts : Nat
  num_readonly_unsigned_accounts : Nat
deriving DecidableEq, Repr

/-- Wire `CompiledInstruction` (proto: `u32` program id index, `bytes`
account indices and data). -/
structure WireInstruction where
  program_id_index : Nat
  accounts : List Nat
  data : List Nat
deriving DecidableEq, Repr

/-- Wire `MessageAddressTableLookup` (all three fields proto `bytes`). -/
structure WireLookup where
  account_key : List Nat
  writable_indexes : List Nat
  readonly_indexes : List Nat
deriving DecidableEq, Repr

/-- Wire `Message`. -/
structure WireMessage where
  header : Option WireHeader
  account_keys : List (List Nat)
  recent_blockhash : List Nat
  instructions : List WireInstruction
  versioned : Bool
  address_table_lookups : List WireLookup
deriving DecidableEq, Repr

/-- Wire `Transaction` (signatures as raw byte strings). -/
structure WireTransaction where
  signatures : List (List Nat)
  message : Option WireMessage
deriving DecidableEq, Repr

/-- Wire `TransactionError` wrapper (`err` is the bincode payload). -/
structure WireTxError where
  err : List Nat
deriving DecidableEq, Repr

/-- Wire `TransactionStatusMeta` (the two fields the decoder reads). -/
structure WireMeta where
  err : Option WireTxError
  compute_units_consumed : Option Nat
deriving DecidableEq, Repr

/-- Wire `SubscribeUpdateTransactionInfo` (the decoder reads only `meta`
and `transaction`). -/
structure WireTxInfo where
  meta : Option WireMeta
  transaction : Option WireTransaction
deriving DecidableEq, Repr

/-- Wire `Reward`; `reward_type` is the raw proto enum integer. -/
structure WireReward where
  pubkey : String
  lamports : Int
  post_balance : Nat
  reward_type : Int
deriving DecidableEq, Repr

/-- Wire `Rewards` wrapper. -/
structure WireRewards where
  rewards : List WireReward
deriving DecidableEq, Repr

/-- Wire `BlockHeight` wrapper. -/
structure WireBlockHeight where
  block_height : Nat
deriving DecidableEq, Repr

/-- Wire `UnixTimestamp` wrapper (proto `int64`). -/
structure WireBlockTime where
  timestamp : Int
deriving DecidableEq, Repr

/-- Wire `SubscribeUpdateBlock`. -/
structure SubscribeUpdateBlock where
  slot : Nat
  blockhash : String
  rewards : Option WireRewards
  block_time : Option WireBlockTime
  block_height : Option WireBlockHeight
  parent_slot : Nat
  parent_blockhash : String
  transactions : List WireTxInfo
deriving DecidableEq, Repr

/-! ## Canonical (domain) output structures

`ProducedBlock` and `TransactionInfo` live in the `solana-lite-rpc-core`
crate of this repository, which is not under `src/`; their field lists are
taken from the spec's data model (§3) and from the constructor literals in
`from_grpc_block_update` itself. `Reward`/`RewardType` are
`solana_transaction_status` types. -/

/-- `solana_transaction_status::RewardType`. -/
inductive RewardType
  | Fee
  | Rent
  | Staking
  | Voting
deriving DecidableEq, Repr

/-- `solana_transaction_status::Reward` (commission is always left unset by
this decoder). -/
structure Reward where
  pubkey : String
  lamports : Int
  post_balance : Nat
  reward_type : Option RewardType
  commission : Option Nat
deriving DecidableEq, Repr

/-- `solana_sdk::commitment_config::CommitmentLevel` (the three levels the
spec names). -/
inductive CommitmentLevel
  | Processed
  | Confirmed
  | Finalized
deriving DecidableEq, Repr

/-- `solana_sdk::commitment_config::CommitmentConfig`: the caller-supplied
trust tag, passed through unchanged. -/
structure CommitmentConfig where
  commitment : CommitmentLevel
deriving DecidableEq, Repr

/-- `TransactionInfo` of `solana-lite-rpc-core`.

Modelled from the spec: §3's canonical Transaction — first-signature text,
vote flag, optional decoded error, optional requested/consumed compute
units, optional prioritization fee, recent-blockhash text, re-serialized
message text, readable/writable account keys, referenced lookup-table
entries — matching the constructor literal at the end of the decoder. -/
structure TransactionInfo where
  signature : String
  is_vote : Bool
  err : Option TransactionError
  cu_requested : Option Nat
  prioritization_fees : Option Nat
  cu_consumed : Option Nat
  recent_blockhash : String
  message : String
  readable_accounts : List Pubkey
  writable_accounts : List Pubkey
  address_lookup_tables : List MessageAddressTableLookup
deriving Repr

/-- `ProducedBlock` of `solana-lite-rpc-core`.

Modelled from the spec: §3's canonical Block, matching the constructor
literal of `from_grpc_block_update`. -/
structure ProducedBlock where
  transactions : List TransactionInfo
  block_height : Nat
  block_time : Nat
  blockhash : String
  previous_blockhash : String
  commitment_config : CommitmentConfig
  leader_id : Option String
  parent_slot : Nat
  slot : Nat
  rewards : Option (List Reward)
deriving Repr

/-! ## Panics

`from_grpc_block_update` returns a bare `ProducedBlock`; its only failure
mode is a Rust panic (process abort). `PRes` separates that outcome from a
normal return, tagged by the panic site. -/

/-- The panic sites of `from_grpc_block_update`. -/
inductive PanicKind
  /-- `.expect("TransactionError should be deserialized")` on the meta
  error field. -/
  | errDecode
  /-- `signatures[0]` on an empty surviving-signature list. -/
  | sigIndex
  /-- `Hash::new` on a recent-blockhash slice that is not 32 bytes. -/
  | hashLen
  /-- `CompiledInstruction::program_id` indexing past the account keys. -/
  | programIdOob
  /-- `VersionedMessage::serialize().unwrap()` on an unserializable
  message. -/
  | serializeFail
  /-- `Option::unwrap()` on a missing `block_height`/`block_time`. -/
  | unwrapNone
deriving DecidableEq, Repr

/-- Result of running code that can panic: either a normal value or a
process abort at a given site. -/
inductive PRes (α : Type)
  | panicked (site : PanicKind)
  | ok (value : α)
deriving DecidableEq, Repr

/-- `true` iff the computation returned normally. -/
def PRes.isOk : PRes α → Bool
  | .ok _ => true
  | .panicked _ => false

/-! ## `from_grpc_block_update` -/

/-- `Signature::try_from(Vec<u8>)`: succeeds exactly on 64-byte strings. -/
def signatureTryFrom (sig : List Nat) : Option (List Nat) :=
  if sig.length = 64 then some sig else none

/-- `meta.err.map(|x| bincode::deserialize(&x.err).expect(…))`: an absent
field is no error, an undecodable payload is a panic. -/
def decodeErrField : Option WireTxError → PRes (Option TransactionError)
  | none => .ok none
  | some x =>
    match decodeTransactionError x.err with
    | some e => .ok (some e)
    | none => .panicked .errDecode

/-- One account key: `try_into::<[u8; 32]>().unwrap_or(Pubkey::default())` —
any length other than 32 falls back to the all-zero key. -/
def keyOrDefault (key : List Nat) : Pubkey :=
  if key.length = 32 then ⟨key⟩ else Pubkey.default

/-- The decoder's `account_keys` list. -/
def wireAccountKeys (wm : WireMessage) : List Pubkey :=
  wm.account_keys.map keyOrDefault

/-- `Hash::new(&bytes)`: panics unless the slice is exactly 32 bytes. -/
def hashNew (bytes : List Nat) : PRes (List Nat) :=
  if bytes.length = 32 then .ok bytes else .panicked .hashLen

/-- The reconstructed instruction list: the wide wire program-id index is
truncated to a `u8` (`as u8`), indices and data copied verbatim. -/
def reconInstructions (wm : WireMessage) : List CompiledInstruction :=
  wm.instructions.map fun ix =>
    ⟨ix.program_id_index % 256, ix.accounts, ix.data⟩

/-- The reconstructed address-table lookups (32-byte key with the same
fallback-to-zero policy as account keys). -/
def reconLookups (wm : WireMessage) : List MessageAddressTableLookup :=
  wm.address_table_lookups.map fun t =>
    ⟨keyOrDefault t.account_key, t.writable_indexes, t.readonly_indexes⟩

/-- The reconstructed `v0::Message` (lines 89–121 of the source): wire
header counts are narrowed with `as u8`, i.e. reduced `% 256`. -/
def mkV0Message (header : WireHeader) (account_keys : List Pubkey)
    (recent_blockhash : List Nat) (wm : WireMessage) : Message :=
  { header := ⟨header.num_required_signatures % 256,
      header.num_readonly_signed_accounts % 256,
      header.num_readonly_unsigned_accounts % 256⟩
    account_keys := account_keys
    recent_blockhash := recent_blockhash
    instructions := reconInstructions wm
    address_table_lookups := reconLookups wm }

/-- Rust `Option::or`. -/
def optOr : Option α → Option α → Option α
  | some x, _ => some x
  | none, b => b

/-- The `legacy_compute_budget` scan (lines 123–144): the first instruction
whose program id is the compute-budget program and whose data decodes as the
deprecated `RequestUnits` yields its units and, when the additional fee is
nonzero, the derived fee `(units * 1000) / additional_fee` in wrapping
32-bit arithmetic. `program_id` indexes the static keys and panics when the
index is out of bounds. -/
def legacy_compute_budget (keys : List Pubkey) :
    List CompiledInstruction → PRes (Option (Nat × Option Nat))
  | [] => .ok none
  | i :: rest =>
    match keys.get? i.program_id_index with
    | none => .panicked .programIdOob
    | some pid =>
      if pid = computeBudgetId then
        match decodeComputeBudgetInstruction i.data with
        | some (.RequestUnitsDeprecated units additional_fee) =>
          if additional_fee > 0 then
            .ok (some (units, some (units * 1000 % 4294967296 / additional_fee)))
          else .ok (some (units, none))
        | _ => legacy_compute_budget keys rest
      else legacy_compute_budget keys rest

/-- The `cu_requested` scan (lines 149–163): first current
`SetComputeUnitLimit` instruction targeting the compute-budget program. -/
def find_cu_limit (keys : List Pubkey) :
    List CompiledInstruction → PRes (Option Nat)
  | [] => .ok none
  | i :: rest =>
    match keys.get? i.program_id_index with
    | none => .panicked .programIdOob
    | some pid =>
      if pid = computeBudgetId then
        match decodeComputeBudgetInstruction i.data with
        | some (.SetComputeUnitLimit limit) => .ok (some limit)
        | _ => find_cu_limit keys rest
      else find_cu_limit keys rest

/-- The `prioritization_fees` scan (lines 166–181): first current
`SetComputeUnitPrice` instruction targeting the compute-budget program. -/
def find_cu_price (keys : List Pubkey) :
    List CompiledInstruction → PRes (Option Nat)
  | [] => .ok none
  | i :: rest =>
    match keys.get? i.program_id_index with
    | none => .panicked .programIdOob
    | some pid =>
      if pid = computeBudgetId then
        match decodeComputeBudgetInstruction i.data with
        | some (.SetComputeUnitPrice price) => .ok (some price)
        | _ => find_cu_price keys rest
      else find_cu_price keys rest

/-- The `is_vote_transaction` scan (lines 184–190): some instruction
targets the vote program and decodes as a simple vote; a decode failure
counts as not-a-vote. -/
def is_vote_scan (keys : List Pubkey) :
    List CompiledInstruction → PRes Bool
  | [] => .ok false
  | i :: rest =>
    match keys.get? i.program_id_index with
    | none => .panicked .programIdOob
    | some pid =>
      if pid = voteProgramId ∧
          ((limitedDeserializeVote i.data).map
            VoteInstruction.is_simple_vote).getD false then
        .ok true
      else is_vote_scan keys rest

/-- The readable/writable partition (lines 192–203): every key at its
positional index goes to `readable` when `is_maybe_writable` is false. -/
def readableAccountsOf (msg : Message) (account_keys : List Pubkey) :
    List Pubkey :=
  ((account_keys.enum.filter fun p => !msg.is_maybe_writable p.1).map
    fun p => p.2)

/-- The writable half of the partition. -/
def writableAccountsOf (msg : Message) (account_keys : List Pubkey) :
    List Pubkey :=
  ((account_keys.enum.filter fun p => msg.is_maybe_writable p.1).map
    fun p => p.2)

/-- The body of the per-transaction closure after the four optional-field
guards (lines 58–222), in the source's evaluation order: signature
filtering, error decode (panic on malformed encoding), first-signature
indexing (panic on an empty list), key reconstruction, message
reconstruction (panic on a bad blockhash length), the three compute-budget
scans and the vote scan (panic on an out-of-range program id index), the
account partition, and the final `TransactionInfo`. -/
def decodeTxInner (meta : WireMeta) (transaction : WireTransaction)
    (wmessage : WireMessage) (header : WireHeader) :
    PRes (Option TransactionInfo) :=
  let signatures := transaction.signatures.filterMap signatureTryFrom
  match decodeErrField meta.err with
  | .panicked site => .panicked site
  | .ok err =>
    match signatures with
    | [] => .panicked .sigIndex
    | signature :: _ =>
      let compute_units_consumed := meta.compute_units_consumed
      let account_keys := wireAccountKeys wmessage
      match hashNew wmessage.recent_blockhash with
      | .panicked site => .panicked site
      | .ok recent_blockhash =>
        let msg := mkV0Message header account_keys recent_blockhash wmessage
        match legacy_compute_budget account_keys msg.instructions with
        | .panicked site => .panicked site
        | .ok legacy =>
          let legacy_cu_requested := legacy.map fun x => x.1
          let legacy_prioritization_fees := (legacy.map fun x => x.2).getD none
          match find_cu_limit account_keys msg.instructions with
          | .panicked site => .panicked site
          | .ok cuLimit =>
            let cu_requested := optOr cuLimit legacy_cu_requested
            match find_cu_price account_keys msg.instructions with
            | .panicked site => .panicked site
            | .ok cuPrice =>
              let prioritization_fees := optOr cuPrice legacy_prioritization_fees
              match is_vote_scan account_keys msg.instructions with
              | .panicked site => .panicked site
              | .ok is_vote_transaction =>
                match serializeVersionedMessage (.V0 msg) with
                | none => .panicked .serializeFail
                | some msgBytes =>
                  .ok (some
                    { signature := base58Encode signature
                      is_vote := is_vote_transaction
                      err := err
                      cu_requested := cu_requested
                      prioritization_fees := prioritization_fees
                      cu_consumed := compute_units_consumed
                      recent_blockhash := base58Encode msg.recent_blockhash
                      message := base64Encode msgBytes
                      readable_accounts := readableAccountsOf msg account_keys
                      writable_accounts := writableAccountsOf msg account_keys
                      address_lookup_tables := msg.address_table_lookups })

/-- The per-transaction closure of the `filter_map` (lines 49–223): an
envelope missing its meta, transaction, message or header is dropped
(`ok none`); otherwise the body runs. -/
def decodeTx (tx : WireTxInfo) : PRes (Option TransactionInfo) :=
  match tx.meta with
  | none => .ok none
  | some meta =>
    match tx.transaction with
    | none => .ok none
    | some transaction =>
      match transaction.message with
      | none => .ok none
      | some wmessage =>
        match wmessage.header with
        | none => .ok none
        | some header => decodeTxInner meta transaction wmessage header

/-- The eager `filter_map(...).collect()` over the block's transactions:
panics propagate, dropped envelopes disappear. -/
def collectTxs : List WireTxInfo → PRes (List TransactionInfo)
  | [] => .ok []
  | t :: rest =>
    match decodeTx t with
    | .panicked site => .panicked site
    | .ok none => collectTxs rest
    | .ok (some ti) =>
      match collectTxs rest with
      | .panicked site => .panicked site
      | .ok tis => .ok (ti :: tis)

/-- One wire reward (lines 230–244): `reward_type()` maps the raw proto
integer, with unknown values falling back to `Unspecified` (no type);
commission is always unset. -/
def mapReward (r : WireReward) : Reward :=
  { pubkey := r.pubkey
    lamports := r.lamports
    post_balance := r.post_balance
    reward_type :=
      if r.reward_type = 1 then some .Fee
      else if r.reward_type = 2 then some .Rent
      else if r.reward_type = 3 then some .Staking
      else if r.reward_type = 4 then some .Voting
      else none
    commission := none }

/-- `from_grpc_block_update` (lines 41–272): the whole-block decode.
`block_height` and `block_time` are unwrapped (panic when absent), and the
wire's signed timestamp is cast `as u64`, i.e. reduced modulo `2 ^ 64` in
two's complement. -/
def from_grpc_block_update (block : SubscribeUpdateBlock)
    (commitment_config : CommitmentConfig) : PRes ProducedBlock :=
  match collectTxs block.transactions with
  | .panicked site => .panicked site
  | .ok txs =>
    let rewards := block.rewards.map fun rs => rs.rewards.map mapReward
    let leader_id :=
      match rewards with
      | some rs =>
        (rs.find? fun reward => some RewardType.Fee = reward.reward_type).map
          fun leader_reward => leader_reward.pubkey
      | none => none
    match block.block_height with
    | none => .panicked .unwrapNone
    | some bh =>
      match block.block_time with
      | none => .panicked .unwrapNone
      | some bt =>
        .ok
          { transactions := txs
            block_height := bh.block_height
            block_time := (bt.timestamp % (2 ^ 64 : Int)).toNat
            blockhash := block.blockhash
            previous_blockhash := block.parent_blockhash
            commitment_config := commitment_config
            leader_id := leader_id
            parent_slot := block.parent_slot
            slot := block.slot
            rewards := rewards }

/-! ## `create_grpc_subscription`

The composer's collaborators (multiplexers, pollers, account streaming) are
external; what the claims concern is the shape of the returned bundle: which
channel slots are filled and which task handles are returned, as a function
of the account-filter set. The channels and handles are therefore modelled
as labelled tokens. -/

/-- An account filter entry; the composer only tests emptiness of the
collection. Modelled from the spec: configuration is "already-parsed
structured input" (§6), defined in the core crate outside `src/`. -/
structure AccountFilter where
  raw : String
deriving DecidableEq, Repr

/-- `AccountFilters`: the collection of account filters. -/
def AccountFilters := List AccountFilter

/-- An opaque RPC client handle (used only to construct the pollers). -/
structure RpcClient where
  url : String
deriving DecidableEq, Repr

/-- An opaque gRPC source description. -/
structure GrpcSourceConfig where
  addr : String
deriving DecidableEq, Repr

/-- The streams wired into the bundle, one label per producer. -/
inductive StreamHandle
  | blockMultiplex
  | slotMultiplex
  | clusterInfo
  | voteAccounts
  | processedAccounts
deriving DecidableEq, Repr

/-- The background-task handles the composer returns. -/
inductive TaskHandle
  | jh_multiplex_slotstream
  | jh_multiplex_blockstream
  | cluster_info_polling
  | vote_accounts_polling
  | account_jh
deriving DecidableEq, Repr

/-- `EndpointStreaming` of `solana-lite-rpc-core`: the bundle of live
channels; the account-stream slot is optional. (Field list from the
constructor literals at lines 296–301 and 313–318.) -/
structure EndpointStreaming where
  blocks_notifier : StreamHandle
  slot_notifier : StreamHandle
  cluster_info_notifier : StreamHandle
  vote_account_notifier : StreamHandle
  processed_account_stream : Option StreamHandle
deriving DecidableEq, Repr

/-- `create_grpc_subscription` (lines 274–328): wires the two multiplexed
subscriptions, the two pollers and — only when the account-filter set is
non-empty — the account stream, returning the bundle and the task list. -/
def create_grpc_subscription (_rpc_client : RpcClient)
    (_grpc_sources : List GrpcSourceConfig)
    (accounts_filter : AccountFilters) :
    Except String (EndpointStreaming × List TaskHandle) :=
  if ¬ accounts_filter.isEmpty then
    .ok
      ({ blocks_notifier := .blockMultiplex
         slot_notifier := .slotMultiplex
         cluster_info_notifier := .clusterInfo
         vote_account_notifier := .voteAccounts
         processed_account_stream := some .processedAccounts },
       [.jh_multiplex_slotstream, .jh_multiplex_blockstream,
        .cluster_info_polling, .vote_accounts_polling, .account_jh])
  else
    .ok
      ({ blocks_notifier := .blockMultiplex
         slot_notifier := .slotMultiplex
         cluster_info_notifier := .clusterInfo
         vote_account_notifier := .voteAccounts
         processed_account_stream := none },
       [.jh_multiplex_slotstream, .jh_multiplex_blockstream,
        .cluster_info_polling, .vote_accounts_polling])

/-! ## Result projections (used to state concrete consequences) -/

/-- Transactions of a successful decode (empty on panic). -/
def txsOfRes : PRes ProducedBlock → List TransactionInfo
  | .ok pb => pb.transactions
  | .panicked _ => []

/-- `block_time` of a successful decode (`0` on panic). -/
def blockTimeOfRes : PRes ProducedBlock → Nat
  | .ok pb => pb.block_time
  | .panicked _ => 0

/-- Prioritization fee of a successfully decoded transaction. -/
def prioFeeOfTx : PRes (Option TransactionInfo) → Option Nat
  | .ok (some ti) => ti.prioritization_fees
  | _ => none

/-- Requested compute units of a successfully decoded transaction. -/
def cuRequestedOfTx : PRes (Option TransactionInfo) → Option Nat
  | .ok (some ti) => ti.cu_requested
  | _ => none

/-- Bundle of a successful composition. -/
def bundleOf (r : Except String (EndpointStreaming × List TaskHandle)) :
    Option EndpointStreaming :=
  r.toOption.map Prod.fst

/-- Task handles of a successful composition (empty on failure). -/
def tasksOf (r : Except String (EndpointStreaming × List TaskHandle)) :
    List TaskHandle :=
  match r with
  | .ok (_, tasks) => tasks
  | .error _ => []

/-! ## Concrete fixtures -/

/-- A well-formed 64-byte signature string. -/
def exSig : List Nat := List.replicate 64 1

/-- A 32-byte account key. -/
def exKey7 : List Nat := List.replicate 32 7

/-- A 32-byte blockhash. -/
def exHash0 : List Nat := List.replicate 32 0

/-- A caller commitment tag. -/
def exCC : CommitmentConfig := ⟨.Confirmed⟩

/-- A minimal complete wire message: one signer key, one read-only key,
no instructions. -/
def exMessage : WireMessage :=
  { header := some ⟨1, 0, 1⟩
    account_keys := [exKey7, exKey7]
    recent_blockhash := exHash0
    instructions := []
    versioned := false
    address_table_lookups := [] }

/-- A complete, well-formed wire transaction envelope. -/
def exTx : WireTxInfo :=
  { meta := some { err := none, compute_units_consumed := some 9 }
    transaction := some { signatures := [exSig], message := some exMessage } }

/-- A well-formed block update carrying `exTx`. -/
def exBlock : SubscribeUpdateBlock :=
  { slot := 5, blockhash := "B", rewards := none
    block_time := some ⟨1700000000⟩, block_height := some ⟨42⟩
    parent_slot := 4, parent_blockhash := "A", transactions := [exTx] }

/-! ## C1 — decoding failures for mandatory fields abort the process -/

/-- A block update whose `block_height` wrapper is missing. -/
def c1NoHeight : SubscribeUpdateBlock :=
  { exBlock with block_height := none, transactions := [] }

/-- A block update whose `block_time` wrapper is missing. -/
def c1NoTime : SubscribeUpdateBlock :=
  { exBlock with block_time := none, transactions := [] }

/-- An envelope whose meta error field does not decode (variant index
`0xFFFFFFFF` is not a `TransactionError`). -/
def c1BadErrTx : WireTxInfo :=
  { exTx with
    meta := some { err := some ⟨[255, 255, 255, 255]⟩
                   compute_units_consumed := none } }

/-- A block update containing a transaction with a malformed error
encoding. -/
def c1BadErrBlock : SubscribeUpdateBlock :=
  { exBlock with transactions := [c1BadErrTx] }

/-- C1: the claim says these three malformed inputs produce "a distinct,
explicit failure result" and "never abort the process". The code does the
opposite: a missing `block_height`, a missing `block_time`, and a
transaction whose wire error field fails to decode each make
`from_grpc_block_update` panic (`Option::unwrap` / `.expect`), aborting the
process instead of returning an error value. -/
theorem from_grpc_block_update_panics_on_mandatory_fields :
    from_grpc_block_update c1NoHeight exCC = .panicked .unwrapNone ∧
    from_grpc_block_update c1NoTime exCC = .panicked .unwrapNone ∧
    from_grpc_block_update c1BadErrBlock exCC = .panicked .errDecode := by
  refine ⟨rfl, rfl, rfl⟩

/-! ## C2 — empty surviving-signature list panics at `signatures[0]` -/

/-- C2: for every envelope whose meta, transaction, message and header are
present but whose surviving signature list is empty after structural
validation, and whose error field itself decodes (so the earlier `.expect`
does not fire first), `from_grpc_block_update`'s per-transaction closure
panics at the `signatures[0]` indexing rather than dropping the transaction
or returning an error. -/
theorem decodeTx_empty_signatures_panics (tx : WireTxInfo) (meta : WireMeta)
    (tr : WireTransaction) (wm : WireMessage) (hdr : WireHeader)
    (hm : tx.meta = some meta) (ht : tx.transaction = some tr)
    (hw : tr.message = some wm) (hh : wm.header = some hdr)
    (hs : tr.signatures.filterMap signatureTryFrom = [])
    (he : (decodeErrField meta.err).isOk = true) :
    decodeTx tx = .panicked .sigIndex := by
  unfold decodeTx
  simp only [hm, ht, hw, hh]
  unfold decodeTxInner
  simp only [hs]
  cases herr : decodeErrField meta.err with
  | panicked site => rw [herr] at he; simp [PRes.isOk] at he
  | ok err => simp

/-- An envelope with all four wrappers present and no signatures at all. -/
def c2Tx : WireTxInfo :=
  { meta := some { err := none, compute_units_consumed := none }
    transaction := some { signatures := [], message := some exMessage } }

/-- C2 witness: the concrete no-signature envelope panics at the indexing
site. -/
theorem decodeTx_empty_signatures_panics_witness :
    decodeTx c2Tx = .panicked .sigIndex :=
  decodeTx_empty_signatures_panics c2Tx _ _ _ _ rfl rfl rfl rfl rfl rfl

/-! ## C6 — header counts are narrowed by silent `mod 256` truncation -/

/-- A wire header whose signature counts exceed a `u8`. -/
def c6Header : WireHeader := ⟨300, 0, 257⟩

/-- A wire message carrying the oversized header. -/
def c6Message : WireMessage := { exMessage with header := some c6Header }

/-- A block update whose only transaction has the oversized header. -/
def c6Block : SubscribeUpdateBlock :=
  { exBlock with
    transactions :=
      [{ exTx with
         transaction := some { signatures := [exSig],
                               message := some c6Message } }] }

/-- C6: the claim says wire signature counts above 255 are flagged as a
wire-format violation. They are not: the reconstruction truncates them
(`as u8`), so `300` becomes `44` and `257` becomes `1` in the rebuilt
header — byte 1 of the serialized message is `44` — and the whole block
still decodes without any failure. -/
theorem header_counts_silently_wrap :
    (mkV0Message c6Header (wireAccountKeys c6Message)
        exHash0 c6Message).header =
      ⟨44, 0, 1⟩ ∧
    ((serializeVersionedMessage (.V0 (mkV0Message c6Header
        (wireAccountKeys c6Message) exHash0 c6Message))).map
      fun bs => bs.get? 1) = some (some 44) ∧
    (from_grpc_block_update c6Block exCC).isOk = true := by
  refine ⟨rfl, rfl, rfl⟩

/-! ## C8 — bundle shape as a function of the account-filter set -/

/-- C8: composing with an empty account-filter set yields a bundle whose
account-stream slot is `none` plus exactly four task handles; a non-empty
filter set yields a present account-stream slot plus exactly five task
handles. -/
theorem create_grpc_subscription_bundle_shape (rpc : RpcClient)
    (sources : List GrpcSourceConfig) (filters : AccountFilters) :
    (filters.isEmpty = true →
      (bundleOf (create_grpc_subscription rpc sources filters)).map
          EndpointStreaming.processed_account_stream = some none ∧
      (tasksOf (create_grpc_subscription rpc sources filters)).length = 4) ∧
    (filters.isEmpty = false →
      (bundleOf (create_grpc_subscription rpc sources filters)).map
          (fun b => b.processed_account_stream.isSome) = some true ∧
      (tasksOf (create_grpc_subscription rpc sources filters)).length = 5) := by
  constructor
  · intro h
    simp [create_grpc_subscription, h, bundleOf, tasksOf, Except.toOption]
  · intro h
    simp [create_grpc_subscription, h, bundleOf, tasksOf, Except.toOption]

/-- C8 witness: both branches at concrete inputs — no filters gives an
absent slot and four tasks, one filter gives a present slot and five. -/
theorem create_grpc_subscription_bundle_shape_witness :
    ((bundleOf (create_grpc_subscription ⟨"url"⟩ [] [])).map
        EndpointStreaming.processed_account_stream = some none ∧
      (tasksOf (create_grpc_subscription ⟨"url"⟩ [] [])).length = 4) ∧
    ((bundleOf (create_grpc_subscription ⟨"url"⟩ [] [⟨"account"⟩])).map
        (fun b => b.processed_account_stream.isSome) = some true ∧
      (tasksOf (create_grpc_subscription ⟨"url"⟩ [] [⟨"account"⟩])).length = 5) :=
  ⟨(create_grpc_subscription_bundle_shape ⟨"url"⟩ [] []).1 rfl,
   (create_grpc_subscription_bundle_shape ⟨"url"⟩ [] [⟨"account"⟩]).2 rfl⟩

/-! ## C10 — negative wire timestamps wrap modulo `2 ^ 64` -/

/-- C10: the decoded `block_time` is the wire's signed timestamp cast
`as u64`: whenever the `block_time` wrapper holds a negative timestamp `t`
and the block decodes, the output equals `2 ^ 64 + t` — two's-complement
wraparound, not an error and not a clamp. -/
theorem block_time_wraps_negative (b : SubscribeUpdateBlock) (t : Int)
    (cfg : CommitmentConfig) (pb : ProducedBlock)
    (hb : b.block_time = some ⟨t⟩) (hneg : t < 0) (hlow : -(2 ^ 63) ≤ t)
    (hok : from_grpc_block_update b cfg = .ok pb) :
    (pb.block_time : Int) = 2 ^ 64 + t := by
  unfold from_grpc_block_update at hok
  rcases hcol : collectTxs b.transactions with site | txs <;> rw [hcol] at hok
  · cases hok
  · rcases hbh : b.block_height with _ | bh <;> simp only [hbh] at hok
    · cases hok
    · rw [hb] at hok
      simp only [PRes.ok.injEq] at hok
      subst hok
      simp only
      have hmod : t % (2 ^ 64 : Int) = t + 2 ^ 64 := by omega
      rw [hmod]
      rw [Int.toNat_of_nonneg (by omega)]
      omega

/-- A block whose wire timestamp is `-5`. -/
def c10Block : SubscribeUpdateBlock :=
  { exBlock with block_time := some ⟨-5⟩, transactions := [] }

/-- C10 witness: the concrete block with timestamp `-5` decodes to
`block_time = 2 ^ 64 - 5`. -/
theorem block_time_wraps_negative_witness :
    (blockTimeOfRes (from_grpc_block_update c10Block exCC) : Int) =
      2 ^ 64 + (-5) :=
  block_time_wraps_negative c10Block (-5) exCC _ rfl (by decide) (by decide) rfl

/-! ## C7 — incomplete envelopes are dropped, siblings and block survive -/

/-- An envelope is incomplete when its meta, inner transaction, message or
message header is missing. -/
def incompleteEnvelope (tx : WireTxInfo) : Prop :=
  tx.meta = none ∨ tx.transaction = none ∨
    (∃ tr, tx.transaction = some tr ∧
      (tr.message = none ∨
        ∃ wm, tr.message = some wm ∧ wm.header = none))

/-- Dropping an incomplete envelope from the transaction list leaves the
collected output untouched. -/
theorem collectTxs_drop_incomplete (e : WireTxInfo)
    (he : decodeTx e = .ok none) (l1 l2 : List WireTxInfo) :
    collectTxs (l1 ++ e :: l2) = collectTxs (l1 ++ l2) := by
  induction l1 with
  | nil => simp [collectTxs, he]
  | cons t rest ih =>
    simp only [List.cons_append, collectTxs, List.append_eq, ih]

/-- C7: an envelope missing its meta, inner transaction, message or header
is dropped without failing the block: the per-transaction closure yields
"no output" (rather than a panic or an error), and a block containing the
envelope decodes to exactly the same result as the block without it — the
siblings all survive, and the block succeeds whenever it would succeed
without the envelope. -/
theorem incomplete_envelope_dropped (e : WireTxInfo)
    (he : incompleteEnvelope e) :
    decodeTx e = .ok none ∧
    ∀ (b : SubscribeUpdateBlock) (l1 l2 : List WireTxInfo)
      (cfg : CommitmentConfig),
      from_grpc_block_update { b with transactions := l1 ++ e :: l2 } cfg =
        from_grpc_block_update { b with transactions := l1 ++ l2 } cfg := by
  have hdrop : decodeTx e = .ok none := by
    unfold decodeTx
    rcases he with hm | ht | ⟨tr, htr, hmsg | ⟨wm, hwm, hhdr⟩⟩
    · simp [hm]
    · cases hmeta : e.meta <;> simp [ht]
    · cases hmeta : e.meta <;> simp [htr, hmsg]
    · cases hmeta : e.meta <;> simp [htr, hwm, hhdr]
  refine ⟨hdrop, fun b l1 l2 cfg => ?_⟩
  unfold from_grpc_block_update
  rw [show ({ b with transactions := l1 ++ e :: l2 } :
        SubscribeUpdateBlock).transactions = l1 ++ e :: l2 from rfl,
      show ({ b with transactions := l1 ++ l2 } :
        SubscribeUpdateBlock).transactions = l1 ++ l2 from rfl,
      collectTxs_drop_incomplete e hdrop l1 l2]

/-- An envelope whose meta is missing. -/
def c7NoMeta : WireTxInfo := { exTx with meta := none }

/-- C7 witness: the concrete meta-less envelope is dropped, and a block
holding it next to the well-formed `exTx` decodes exactly as the block
holding only `exTx`. -/
theorem incomplete_envelope_dropped_witness :
    decodeTx c7NoMeta = .ok none ∧
    from_grpc_block_update
        { exBlock with transactions := [exTx] ++ c7NoMeta :: [] } exCC =
      from_grpc_block_update
        { exBlock with transactions := [exTx] ++ [] } exCC :=
  ⟨(incomplete_envelope_dropped c7NoMeta (Or.inl rfl)).1,
   (incomplete_envelope_dropped c7NoMeta (Or.inl rfl)).2 exBlock [exTx] [] exCC⟩

/-- Projection: the reconstructed message's instruction list. -/
theorem mkV0Message_instructions (hdr : WireHeader) (ks : List Pubkey)
    (rb : List Nat) (wm : WireMessage) :
    (mkV0Message hdr ks rb wm).instructions = reconInstructions wm := rfl

/-- Projection: the reconstructed message's blockhash bytes. -/
theorem mkV0Message_recent_blockhash (hdr : WireHeader) (ks : List Pubkey)
    (rb : List Nat) (wm : WireMessage) :
    (mkV0Message hdr ks rb wm).recent_blockhash = rb := rfl

/-- Projection: the reconstructed message's lookup list. -/
theorem mkV0Message_lookups (hdr : WireHeader) (ks : List Pubkey)
    (rb : List Nat) (wm : WireMessage) :
    (mkV0Message hdr ks rb wm).address_table_lookups = reconLookups wm := rfl

/-- Inversion of a successful per-transaction decode: the success exposes
each intermediate value of `decodeTxInner` and the exact shape of the
produced `TransactionInfo`. -/
theorem decodeTxInner_ok_elim (meta : WireMeta) (tr : WireTransaction)
    (wm : WireMessage) (hdr : WireHeader) (ti : TransactionInfo)
    (h : decodeTxInner meta tr wm hdr = .ok (some ti)) :
    ∃ err sig sigRest rbh legacy cuLimit cuPrice isVote msgBytes,
      decodeErrField meta.err = .ok err ∧
      tr.signatures.filterMap signatureTryFrom = sig :: sigRest ∧
      hashNew wm.recent_blockhash = .ok rbh ∧
      legacy_compute_budget (wireAccountKeys wm) (reconInstructions wm) =
        .ok legacy ∧
      find_cu_limit (wireAccountKeys wm) (reconInstructions wm) =
        .ok cuLimit ∧
      find_cu_price (wireAccountKeys wm) (reconInstructions wm) =
        .ok cuPrice ∧
      is_vote_scan (wireAccountKeys wm) (reconInstructions wm) =
        .ok isVote ∧
      serializeVersionedMessage
          (.V0 (mkV0Message hdr (wireAccountKeys wm) rbh wm)) =
        some msgBytes ∧
      ti = { signature := base58Encode sig
             is_vote := isVote
             err := err
             cu_requested := optOr cuLimit (legacy.map fun x => x.1)
             prioritization_fees :=
               optOr cuPrice ((legacy.map fun x => x.2).getD none)
             cu_consumed := meta.compute_units_consumed
             recent_blockhash := base58Encode rbh
             message := base64Encode msgBytes
             readable_accounts :=
               readableAccountsOf (mkV0Message hdr (wireAccountKeys wm) rbh wm)
                 (wireAccountKeys wm)
             writable_accounts :=
               writableAccountsOf (mkV0Message hdr (wireAccountKeys wm) rbh wm)
                 (wireAccountKeys wm)
             address_lookup_tables := reconLookups wm } := by
  simp only [decodeTxInner] at h
  rcases herr : decodeErrField meta.err with site | err <;>
    simp only [herr] at h
  · exact PRes.noConfusion h
  rcases hsig : tr.signatures.filterMap signatureTryFrom with _ | ⟨sig, sigRest⟩ <;>
    simp only [hsig] at h
  · exact PRes.noConfusion h
  rcases hrb : hashNew wm.recent_blockhash with site | rbh <;>
    simp only [hrb, mkV0Message_instructions, mkV0Message_recent_blockhash,
      mkV0Message_lookups] at h
  · exact PRes.noConfusion h
  rcases hleg : legacy_compute_budget (wireAccountKeys wm)
      (reconInstructions wm) with site | legacy <;>
    simp only [hleg] at h
  · exact PRes.noConfusion h
  rcases hlim : find_cu_limit (wireAccountKeys wm)
      (reconInstructions wm) with site | cuLimit <;>
    simp only [hlim] at h
  · exact PRes.noConfusion h
  rcases hpr : find_cu_price (wireAccountKeys wm)
      (reconInstructions wm) with site | cuPrice <;>
    simp only [hpr] at h
  · exact PRes.noConfusion h
  rcases hv : is_vote_scan (wireAccountKeys wm)
      (reconInstructions wm) with site | isVote <;>
    simp only [hv] at h
  · exact PRes.noConfusion h
  rcases hser : serializeVersionedMessage
      (.V0 (mkV0Message hdr (wireAccountKeys wm) rbh wm)) with _ | msgBytes <;>
    simp only [hser] at h
  · exact PRes.noConfusion h
  simp only [PRes.ok.injEq, Option.some.injEq] at h
  refine ⟨err, sig, sigRest, rbh, legacy, cuLimit, cuPrice, isVote, msgBytes,
    ?_, ?_, ?_, ?_, ?_, ?_, ?_, ?_, h.symm⟩ <;>
    first
    | rfl
    | assumption

/-! ## C4 — the deprecated request-units instruction and its legacy fee -/

/-- C4: (1) when the scan reaches an instruction whose program id resolves
to the compute-budget program and whose data decodes as the deprecated
`RequestUnits`, the requested units are its `units` field and the derived
legacy fee is `units * 1000 / additional_fee` in truncating unsigned 32-bit
arithmetic when the fee field is nonzero, absent when it is zero (and in
the absence of 32-bit overflow the wrapped product equals the plain
product); (2) any other instruction is skipped by the scan; (3) in a
successfully decoded transaction with a legacy match and no current
`SetComputeUnitLimit` instruction, the reported requested compute units are
exactly the legacy `units` value. -/
theorem legacy_request_units_formula :
    (∀ (keys : List Pubkey) (i : CompiledInstruction)
        (rest : List CompiledInstruction) (units fee : Nat),
      keys.get? i.program_id_index = some computeBudgetId →
      decodeComputeBudgetInstruction i.data =
        some (.RequestUnitsDeprecated units fee) →
      legacy_compute_budget keys (i :: rest) =
        .ok (some (units,
          if fee > 0 then some (units * 1000 % 4294967296 / fee) else none)) ∧
      (units * 1000 < 4294967296 →
        units * 1000 % 4294967296 / fee = units * 1000 / fee)) ∧
    (∀ (keys : List Pubkey) (pid : Pubkey) (i : CompiledInstruction)
        (rest : List CompiledInstruction),
      keys.get? i.program_id_index = some pid →
      (pid ≠ computeBudgetId ∨
        ∀ u f, decodeComputeBudgetInstruction i.data ≠
          some (.RequestUnitsDeprecated u f)) →
      legacy_compute_budget keys (i :: rest) =
        legacy_compute_budget keys rest) ∧
    (∀ (tx : WireTxInfo) (meta : WireMeta) (tr : WireTransaction)
        (wm : WireMessage) (hdr : WireHeader) (ti : TransactionInfo)
        (units : Nat) (fee : Option Nat),
      tx.meta = some meta → tx.transaction = some tr →
      tr.message = some wm → wm.header = some hdr →
      decodeTx tx = .ok (some ti) →
      legacy_compute_budget (wireAccountKeys wm) (reconInstructions wm) =
        .ok (some (units, fee)) →
      find_cu_limit (wireAccountKeys wm) (reconInstructions wm) = .ok none →
      ti.cu_requested = some units) := by
  refine ⟨?_, ?_, ?_⟩
  · intro keys i rest units fee h1 h2
    constructor
    · unfold legacy_compute_budget
      simp only [h1, h2]
      by_cases hf : fee > 0 <;> simp [hf]
    · intro hov
      rw [Nat.mod_eq_of_lt hov]
  · intro keys pid i rest h1 h2
    conv_lhs => unfold legacy_compute_budget
    simp only [h1]
    by_cases hpid : pid = computeBudgetId
    · subst hpid
      simp only [if_pos rfl]
      rcases h2 with hne | hnot
      · exact absurd rfl hne
      · rcases hdec : decodeComputeBudgetInstruction i.data with _ | cbi
        · simp [hdec]
        · cases cbi with
          | RequestUnitsDeprecated u f => exact absurd hdec (hnot u f)
          | RequestHeapFrame b => simp [hdec]
          | SetComputeUnitLimit u => simp [hdec]
          | SetComputeUnitPrice p => simp [hdec]
          | SetLoadedAccountsDataSizeLimit b => simp [hdec]
    · simp only [if_neg hpid]
  · intro tx meta tr wm hdr ti units fee hm ht hw hh hdec hleg hlim
    rw [show decodeTx tx = decodeTxInner meta tr wm hdr by
      unfold decodeTx; simp only [hm, ht, hw, hh]] at hdec
    obtain ⟨err, sig, sigRest, rbh, legacy, cuLimit, cuPrice, isVote,
      msgBytes, _, _, _, hleg', hlim', _, _, _, hti⟩ :=
      decodeTxInner_ok_elim meta tr wm hdr ti hdec
    rw [hleg'] at hleg
    rw [hlim'] at hlim
    cases hleg
    cases hlim
    rw [hti]
    rfl

/-- Bytes of the compute-budget program key, as they appear on the wire. -/
def exKeyCB : List Nat := computeBudgetId.bytes

/-- A wire message whose second key is the compute-budget program and whose
only instruction is the deprecated `RequestUnits { units: 1000,
additional_fee: 500 }` (borsh tag 0, two little-endian `u32`s). -/
def c4Message : WireMessage :=
  { exMessage with
    account_keys := [exKey7, exKeyCB]
    instructions := [⟨1, [], [0, 232, 3, 0, 0, 244, 1, 0, 0]⟩] }

/-- The envelope carrying `c4Message`. -/
def c4Tx : WireTxInfo :=
  { exTx with
    transaction := some { signatures := [exSig], message := some c4Message } }

/-- C4 witness: with `units = 1000`, `additional_fee = 500` the scan yields
requested units `1000` and legacy fee `(1000 * 1000) / 500 = 2000`; with
`additional_fee = 0` the fee is absent; and the decoded transaction reports
`cu_requested = 1000`. -/
theorem legacy_request_units_formula_witness :
    legacy_compute_budget (wireAccountKeys c4Message)
        [⟨1, [], [0, 232, 3, 0, 0, 244, 1, 0, 0]⟩] =
      .ok (some (1000, some 2000)) ∧
    legacy_compute_budget (wireAccountKeys c4Message)
        [⟨1, [], [0, 232, 3, 0, 0, 0, 0, 0, 0]⟩] =
      .ok (some (1000, none)) ∧
    cuRequestedOfTx (decodeTx c4Tx) = some 1000 := by
  refine ⟨?_, ?_, ?_⟩
  · have h := (legacy_request_units_formula.1 (wireAccountKeys c4Message)
      ⟨1, [], [0, 232, 3, 0, 0, 244, 1, 0, 0]⟩ [] 1000 500 rfl rfl).1
    simpa using h
  · have h := (legacy_request_units_formula.1 (wireAccountKeys c4Message)
      ⟨1, [], [0, 232, 3, 0, 0, 0, 0, 0, 0]⟩ [] 1000 0 rfl rfl).1
    simpa using h
  · exact legacy_request_units_formula.2.2 c4Tx _ _ _ _ _ 1000 (some 2000)
      rfl rfl rfl rfl rfl rfl rfl

/-! ## C5 — prioritization-fee precedence -/

/-- C5: the prioritization fee follows the precedence order: (1) when the
scan reaches a `SetComputeUnitPrice` instruction targeting the
compute-budget program its value is found, (2) any other instruction is
skipped, (3) in a successfully decoded transaction a found current price is
reported as the fee — even when a legacy deprecated instruction also
carries a fee — and (4) with no current price instruction the fee is the
legacy-derived one, absent when there is no legacy match. -/
theorem priority_fee_precedence :
    (∀ (keys : List Pubkey) (i : CompiledInstruction)
        (rest : List CompiledInstruction) (p : Nat),
      keys.get? i.program_id_index = some computeBudgetId →
      decodeComputeBudgetInstruction i.data = some (.SetComputeUnitPrice p) →
      find_cu_price keys (i :: rest) = .ok (some p)) ∧
    (∀ (keys : List Pubkey) (pid : Pubkey) (i : CompiledInstruction)
        (rest : List CompiledInstruction),
      keys.get? i.program_id_index = some pid →
      (pid ≠ computeBudgetId ∨
        ∀ p, decodeComputeBudgetInstruction i.data ≠
          some (.SetComputeUnitPrice p)) →
      find_cu_price keys (i :: rest) = find_cu_price keys rest) ∧
    (∀ (tx : WireTxInfo) (meta : WireMeta) (tr : WireTransaction)
        (wm : WireMessage) (hdr : WireHeader) (ti : TransactionInfo) (p : Nat),
      tx.meta = some meta → tx.transaction = some tr →
      tr.message = some wm → wm.header = some hdr →
      decodeTx tx = .ok (some ti) →
      find_cu_price (wireAccountKeys wm) (reconInstructions wm) =
        .ok (some p) →
      ti.prioritization_fees = some p) ∧
    (∀ (tx : WireTxInfo) (meta : WireMeta) (tr : WireTransaction)
        (wm : WireMessage) (hdr : WireHeader) (ti : TransactionInfo)
        (legacy : Option (Nat × Option Nat)),
      tx.meta = some meta → tx.transaction = some tr →
      tr.message = some wm → wm.header = some hdr →
      decodeTx tx = .ok (some ti) →
      find_cu_price (wireAccountKeys wm) (reconInstructions wm) = .ok none →
      legacy_compute_budget (wireAccountKeys wm) (reconInstructions wm) =
        .ok legacy →
      ti.prioritization_fees = (legacy.map fun x => x.2).getD none) := by
  refine ⟨?_, ?_, ?_, ?_⟩
  · intro keys i rest p h1 h2
    unfold find_cu_price
    simp only [h1, h2]
    simp
  · intro keys pid i rest h1 h2
    conv_lhs => unfold find_cu_price
    simp only [h1]
    by_cases hpid : pid = computeBudgetId
    · subst hpid
      simp only [if_pos rfl]
      rcases h2 with hne | hnot
      · exact absurd rfl hne
      · rcases hdec : decodeComputeBudgetInstruction i.data with _ | cbi
        · simp [hdec]
        · cases cbi with
          | SetComputeUnitPrice p => exact absurd hdec (hnot p)
          | RequestUnitsDeprecated u f => simp [hdec]
          | RequestHeapFrame b => simp [hdec]
          | SetComputeUnitLimit u => simp [hdec]
          | SetLoadedAccountsDataSizeLimit b => simp [hdec]
    · simp only [if_neg hpid]
  · intro tx meta tr wm hdr ti p hm ht hw hh hdec hpr
    rw [show decodeTx tx = decodeTxInner meta tr wm hdr by
      unfold decodeTx; simp only [hm, ht, hw, hh]] at hdec
    obtain ⟨err, sig, sigRest, rbh, legacy, cuLimit, cuPrice, isVote,
      msgBytes, _, _, _, _, _, hpr', _, _, hti⟩ :=
      decodeTxInner_ok_elim meta tr wm hdr ti hdec
    rw [hpr'] at hpr
    cases hpr
    rw [hti]
    rfl
  · intro tx meta tr wm hdr ti legacy hm ht hw hh hdec hpr hleg
    rw [show decodeTx tx = decodeTxInner meta tr wm hdr by
      unfold decodeTx; simp only [hm, ht, hw, hh]] at hdec
    obtain ⟨err, sig, sigRest, rbh, legacy', cuLimit, cuPrice, isVote,
      msgBytes, _, _, _, hleg', _, hpr', _, _, hti⟩ :=
      decodeTxInner_ok_elim meta tr wm hdr ti hdec
    rw [hpr'] at hpr
    rw [hleg'] at hleg
    cases hpr
    cases hleg
    rw [hti]
    rfl

/-- A wire message holding both a legacy deprecated request-units
instruction (fee 500, deriving 2000) and a current `SetComputeUnitPrice 42`
instruction (borsh tag 3, little-endian `u64`). -/
def c5Message : WireMessage :=
  { exMessage with
    account_keys := [exKey7, exKeyCB]
    instructions := [⟨1, [], [0, 232, 3, 0, 0, 244, 1, 0, 0]⟩,
                     ⟨1, [], [3, 42, 0, 0, 0, 0, 0, 0, 0]⟩] }

/-- The envelope carrying `c5Message`. -/
def c5Tx : WireTxInfo :=
  { exTx with
    transaction := some { signatures := [exSig], message := some c5Message } }

/-- C5 witness: with both instructions present the current price `42` wins
over the legacy-derived `2000`; with only the legacy instruction the fee is
the derived `2000`; with no compute-budget instruction at all it is
absent. -/
theorem priority_fee_precedence_witness :
    prioFeeOfTx (decodeTx c5Tx) = some 42 ∧
    prioFeeOfTx (decodeTx c4Tx) = some 2000 ∧
    prioFeeOfTx (decodeTx exTx) = none := by
  refine ⟨?_, ?_, ?_⟩
  · exact priority_fee_precedence.2.2.1 c5Tx _ _ _ _ _ 42
      rfl rfl rfl rfl rfl rfl
  · exact priority_fee_precedence.2.2.2 c4Tx _ _ _ _ _ (some (1000, some 2000))
      rfl rfl rfl rfl rfl rfl rfl
  · exact priority_fee_precedence.2.2.2 exTx _ _ _ _ _ none
      rfl rfl rfl rfl rfl rfl rfl

/-! ## C9 — every reconstructed message is tagged V0 -/

/-- Message text of a successfully decoded transaction. -/
def msgOfTx : PRes (Option TransactionInfo) → String
  | .ok (some ti) => ti.message
  | _ => ""

/-- A serialized `V0` message always begins with the version prefix byte
`0x80`. -/
theorem serializeV0_head (m : Message) (bs : List Nat)
    (h : serializeVersionedMessage (.V0 m) = some bs) :
    bs.head? = some 128 := by
  unfold serializeVersionedMessage at h
  rcases hc : serializeMessageCore m with _ | core <;> simp only [hc] at h
  · exact Option.noConfusion h
  rcases hl : serializeShortVecF serializeLookup m.address_table_lookups
      with _ | lookups <;> simp only [hl, Option.map] at h
  · exact Option.noConfusion h
  cases h
  rfl

/-- C9: (1) the decoder never consults the wire message's `versioned`
flag — flipping it leaves the decode result unchanged, so legacy wire
transactions are reconstructed exactly like V0 ones; (2) every successfully
decoded transaction's canonical message text is the base64 encoding of the
serialization of the reconstructed message tagged `V0` — bytes beginning
with the V0 version prefix `0x80`. -/
theorem message_always_v0 :
    (∀ (tx : WireTxInfo) (tr : WireTransaction) (wm : WireMessage) (b : Bool),
      tx.transaction = some tr → tr.message = some wm →
      decodeTx ({ tx with
          transaction := some ({ tr with
            message := some ({ wm with versioned := b }) }) }) =
        decodeTx tx) ∧
    (∀ (tx : WireTxInfo) (meta : WireMeta) (tr : WireTransaction)
        (wm : WireMessage) (hdr : WireHeader) (ti : TransactionInfo),
      tx.meta = some meta → tx.transaction = some tr →
      tr.message = some wm → wm.header = some hdr →
      decodeTx tx = .ok (some ti) →
      ∃ m bytes, serializeVersionedMessage (.V0 m) = some bytes ∧
        bytes.head? = some 128 ∧ ti.message = base64Encode bytes) := by
  constructor
  · intro tx tr wm b ht hw
    unfold decodeTx
    simp only [ht, hw]
    cases tx.meta with
    | none => rfl
    | some meta =>
      cases wm.header with
      | none => rfl
      | some hdr =>
        simp only [decodeTxInner, wireAccountKeys, reconInstructions,
          reconLookups, mkV0Message]
  · intro tx meta tr wm hdr ti hm ht hw hh hdec
    rw [show decodeTx tx = decodeTxInner meta tr wm hdr by
      unfold decodeTx; simp only [hm, ht, hw, hh]] at hdec
    obtain ⟨err, sig, sigRest, rbh, legacy, cuLimit, cuPrice, isVote,
      msgBytes, _, _, _, _, _, _, _, hser, hti⟩ :=
      decodeTxInner_ok_elim meta tr wm hdr ti hdec
    exact ⟨mkV0Message hdr (wireAccountKeys wm) rbh wm, msgBytes, hser,
      serializeV0_head _ _ hser, by rw [hti]⟩

/-- C9 witness: flipping the version flag of the concrete envelope changes
nothing, and its decoded message text is the base64 of `0x80`-prefixed
serialized bytes. -/
theorem message_always_v0_witness :
    decodeTx ({ exTx with
        transaction := some ({ signatures := [exSig],
                               message := some ({ exMessage with
                                 versioned := true }) }) }) =
      decodeTx exTx ∧
    ∃ m bytes, serializeVersionedMessage (.V0 m) = some bytes ∧
      bytes.head? = some 128 ∧
      msgOfTx (decodeTx exTx) = base64Encode bytes := by
  constructor
  · exact message_always_v0.1 exTx _ _ true rfl rfl
  · obtain ⟨m, bytes, hser, hhead, hmsg⟩ :=
      message_always_v0.2 exTx _ _ _ _ _ rfl rfl rfl rfl rfl
    exact ⟨m, bytes, hser, hhead, hmsg⟩

/-! ## C3 — the readable/writable partition -/

/-- Readable keys of a successfully decoded transaction. -/
def readableOfTx : PRes (Option TransactionInfo) → List Pubkey
  | .ok (some ti) => ti.readable_accounts
  | _ => []

/-- Writable keys of a successfully decoded transaction. -/
def writableOfTx : PRes (Option TransactionInfo) → List Pubkey
  | .ok (some ti) => ti.writable_accounts
  | _ => []

/-- The partition's positional structure: the two lists together are a
permutation of the key list, and the key at every index lands in the list
chosen by the message's writability predicate. -/
theorem partition_perm_and_mem (msg : Message) (keys : List Pubkey) :
    (readableAccountsOf msg keys ++ writableAccountsOf msg keys).Perm keys ∧
    ∀ (i : Nat) (h : i < keys.length),
      (msg.is_maybe_writable i = true →
        keys[i] ∈ writableAccountsOf msg keys) ∧
      (msg.is_maybe_writable i = false →
        keys[i] ∈ readableAccountsOf msg keys) := by
  constructor
  · unfold readableAccountsOf writableAccountsOf
    rw [← List.map_append]
    have hp := List.filter_append_perm
      (fun p : Nat × Pubkey => msg.is_maybe_writable p.1) keys.enum
    have hcomm :
        ((keys.enum.filter fun p => !msg.is_maybe_writable p.1) ++
          (keys.enum.filter fun p => msg.is_maybe_writable p.1)).Perm
          keys.enum :=
      List.Perm.trans List.perm_append_comm hp
    have hmap := hcomm.map Prod.snd
    rw [List.enum_map_snd] at hmap
    exact hmap
  · intro i h
    constructor
    · intro hw
      unfold writableAccountsOf
      refine List.mem_map.mpr ⟨(i, keys[i]), ?_, rfl⟩
      refine List.mem_filter.mpr ⟨?_, ?_⟩
      · exact List.mk_mem_enum_iff_getElem?.mpr (List.getElem?_eq_getElem h)
      · simpa using hw
    · intro hr
      unfold readableAccountsOf
      refine List.mem_map.mpr ⟨(i, keys[i]), ?_, rfl⟩
      refine List.mem_filter.mpr ⟨?_, ?_⟩
      · exact List.mk_mem_enum_iff_getElem?.mpr (List.getElem?_eq_getElem h)
      · simpa using hr

/-- C3 (amended): in every successfully decoded transaction the
readable/writable account lists partition the message's key list by
positional index — their concatenation is a permutation of the full
account-key list, and the key at each index is placed in the writable list
when the message's own writability predicate holds there and in the
readable list otherwise. (As plain key sets the two lists need not be
disjoint: the same key value may occur at a writable and a readable
index.) -/
theorem account_partition_by_index (tx : WireTxInfo) (meta : WireMeta)
    (tr : WireTransaction) (wm : WireMessage) (hdr : WireHeader)
    (ti : TransactionInfo)
    (hm : tx.meta = some meta) (ht : tx.transaction = some tr)
    (hw : tr.message = some wm) (hh : wm.header = some hdr)
    (hdec : decodeTx tx = .ok (some ti)) :
    ∃ rbh, hashNew wm.recent_blockhash = .ok rbh ∧
      (ti.readable_accounts ++ ti.writable_accounts).Perm
        (wireAccountKeys wm) ∧
      ∀ (i : Nat) (h : i < (wireAccountKeys wm).length),
        ((mkV0Message hdr (wireAccountKeys wm) rbh wm).is_maybe_writable i =
            true →
          (wireAccountKeys wm)[i] ∈ ti.writable_accounts) ∧
        ((mkV0Message hdr (wireAccountKeys wm) rbh wm).is_maybe_writable i =
            false →
          (wireAccountKeys wm)[i] ∈ ti.readable_accounts) := by
  rw [show decodeTx tx = decodeTxInner meta tr wm hdr by
    unfold decodeTx; simp only [hm, ht, hw, hh]] at hdec
  obtain ⟨err, sig, sigRest, rbh, legacy, cuLimit, cuPrice, isVote,
    msgBytes, _, _, hrb, _, _, _, _, _, hti⟩ :=
    decodeTxInner_ok_elim meta tr wm hdr ti hdec
  obtain ⟨hperm, hmem⟩ := partition_perm_and_mem
    (mkV0Message hdr (wireAccountKeys wm) rbh wm) (wireAccountKeys wm)
  refine ⟨rbh, hrb, ?_, ?_⟩
  · rw [hti]
    exact hperm
  · intro i h
    rw [hti]
    exact hmem i h

/-- C3 witness: the partition facts at the concrete block — the two lists
of the decoded transaction form a permutation of the key list, index 0
(signer, writable) lands in the writable list, index 1 (read-only) in the
readable list. -/
theorem account_partition_by_index_witness :
    (readableOfTx (decodeTx exTx) ++ writableOfTx (decodeTx exTx)).Perm
      (wireAccountKeys exMessage) ∧
    Pubkey.mk exKey7 ∈ writableOfTx (decodeTx exTx) ∧
    Pubkey.mk exKey7 ∈ readableOfTx (decodeTx exTx) := by
  obtain ⟨rbh, hrb, hperm, hmem⟩ :=
    account_partition_by_index exTx _ _ _ _ _ rfl rfl rfl rfl rfl
  exact ⟨hperm, (hmem 0 (by decide)).1 rfl, (hmem 1 (by decide)).2 rfl⟩

/-- C3 counterexample: the claim's set-level disjointness fails on the
code. In the successfully decoded concrete block the same key occupies a
writable index and a read-only index, so the readable and writable sets
intersect: their intersection is exactly that key. -/
theorem readable_writable_sets_not_disjoint :
    (txsOfRes (from_grpc_block_update exBlock exCC)).map
        (fun ti => ti.readable_accounts.inter ti.writable_accounts) =
      [[Pubkey.mk exKey7]] := by
  rfl

end LiteRpc
